import Mathlib

/-!
The video filter of `javascripts/video.js`.

A shallow embedding of the demo application `dena.Application`:

* the two preset tables `COMPOSITION_` and `COLOR_`, with the binary32 values their
  `Float32Array`s keep;
* the fragment shader `FRAGMENT` (nine weighted samples, then a 4x4 colour matrix), once
  computed without rounding and once with every operand and result rounded by the
  arithmetic of the GPU, which is a parameter;
* the sample offsets computed by `handleCaptureSuccess_`;
* the two handlers `handleCaptureSuccess_` and `updateFrame_`, as functions from a state
  to a completion and a state.  The state holds the application object and the list of
  the calls made on the browser; the answers of the WebGL context are parameters.

A number is a rational; `Infinity` is not a number of the embedding and is marked where
the program can produce it.
-/

namespace dena

/-! ## What a `Float32Array` stores

An engine evaluates each element expression in binary64 and the array keeps the binary32
value nearest to the result.  The functions below compute that value for numbers in the
normal range. -/

/-- A `Float32Array` whose elements are finite: the sequence of its elements. -/
abbrev Float32Array := List ℚ

/-- The quotient `a / b` rounded to the nearest natural number, a tie going to the even one. -/
def roundHalfEven (a b : Nat) : Nat :=
  let q := a / b
  let r := a % b
  if 2 * r < b then q else if b < 2 * r then q + 1 else if q % 2 = 0 then q else q + 1

/-- The position of the highest set bit of `n`, found in at most `fuel` halvings. -/
def log2Fuel : Nat → Nat → Nat
  | 0, _ => 0
  | fuel + 1, n => if n < 2 then 0 else log2Fuel fuel (n / 2) + 1

/-- The position of the highest set bit of `n` (0 for 0). -/
def floorLog2 (n : Nat) : Nat :=
  log2Fuel n n

/-- The number with `p` significant bits nearest to `n / d` (ties to even), for `n, d > 0`:
its significand and the binary exponent of its last place. -/
def roundBits (p : Nat) (n d : Nat) : Nat × Int :=
  let e0 : Int := (floorLog2 n : Int) - (floorLog2 d : Int)
  let e : Int := if n * 2 ^ (-e0).toNat < d * 2 ^ e0.toNat then e0 - 1 else e0
  let k : Int := e - ((p : Int) - 1)
  (roundHalfEven (n * 2 ^ (-k).toNat) (d * 2 ^ k.toNat), k)

/-- The rational number `m * 2 ^ k`. -/
def dyadic (m : Nat × Int) : ℚ :=
  mkRat ((m.1 * 2 ^ m.2.toNat : Nat) : Int) (2 ^ (-m.2).toNat)

/-- The number with `p` significant bits nearest to `q`. -/
def roundRat (p : Nat) (q : ℚ) : ℚ :=
  if q.num = 0 then 0
  else if 0 < q.num then dyadic (roundBits p q.num.natAbs q.den)
  else -dyadic (roundBits p q.num.natAbs q.den)

/-- The binary32 value kept for an element whose expression has the exact value `q`:
rounded to binary64 (53 bits) by the evaluation, then to binary32 (24 bits) by the array. -/
def toFloat32 (q : ℚ) : ℚ :=
  roundRat 24 (roundRat 53 q)

/-- The values `new Float32Array (values)` keeps.  Every element expression of the program
is a literal, one quotient, or the negation of one, so that its binary64 value is its exact
value rounded once. -/
def stored (values : Float32Array) : Float32Array :=
  values.map toFloat32

/-- Rounding to binary32: the arithmetic of a GPU that computes `mediump` in 32 bits. -/
def binary32 (q : ℚ) : ℚ :=
  roundRat 24 q

/-- Rounding to binary16: the arithmetic of a GPU that computes `mediump` in 16 bits. -/
def binary16 (q : ℚ) : ℚ :=
  roundRat 11 q

/-! ## The tables -/

/-- A JavaScript object literal whose values are arrays: its keys with their values, in source order. -/
abbrev Table := List (String × Float32Array)

/-- The own property `name` of an object literal: the value stored under the key, `none`
when the literal has no such key. -/
def Table.get (table : Table) (name : String) : Option Float32Array :=
  List.lookup name table

/-- The keys of an object literal, in source order. -/
def Table.keys (table : Table) : List String :=
  table.map Prod.fst

/-- What a property access on one of the tables evaluates to. -/
inductive Value
  | float32Array (elements : Float32Array)
  | inherited
  | undefined
deriving DecidableEq

/-- The names every object inherits from `Object.prototype`: under them a property access
finds a function or an object. -/
def objectPrototypeNames : List String :=
  [ "constructor", "toString", "toLocaleString", "valueOf", "hasOwnProperty",
    "isPrototypeOf", "propertyIsEnumerable", "__proto__", "__defineGetter__",
    "__defineSetter__", "__lookupGetter__", "__lookupSetter__" ]

/-- Property access `table[name]`: the own property if there is one, else what
`Object.prototype` has under the name, else `undefined`. -/
def Table.index (table : Table) (name : String) : Value :=
  match table.get name with
  | some elements => Value.float32Array elements
  | none => if name ∈ objectPrototypeNames then Value.inherited else Value.undefined

/-- The table `dena.Application.COMPOSITION_` (video.js, lines 120-151). -/
def COMPOSITION_ : Table :=
  [ ("none", stored
      [ 0, 0, 0,
        0, 1, 0,
        0, 0, 0 ]),
    ("box", stored
      [ 1 / 9, 1 / 9, 1 / 9,
        1 / 9, 1 / 9, 1 / 9,
        1 / 9, 1 / 9, 1 / 9 ]),
    ("gaussian", stored
      [ 1 / 16, 2 / 16, 1 / 16,
        2 / 16, 4 / 16, 2 / 16,
        1 / 16, 2 / 16, 1 / 16 ]),
    ("emboss", stored
      [ 2, -1, 0,
        0, -1, 0,
        0, 0, -1 ]),
    ("sharpness", stored
      [ -1, -1, -1,
        -1, 9, -1,
        -1, -1, -1 ]),
    ("laplacian", stored
      [ 0, 1, 0,
        1, -4, 1,
        0, 1, 0 ]) ]

/-- The table `dena.Application.COLOR_` (video.js, lines 158-183). -/
def COLOR_ : Table :=
  [ ("none", stored
      [ 1, 0, 0, 0,
        0, 1, 0, 0,
        0, 0, 1, 0,
        0, 0, 0, 1 ]),
    ("bgra", stored
      [ 0, 0, 1, 0,
        0, 1, 0, 0,
        1, 0, 0, 0,
        0, 0, 0, 1 ]),
    ("sepia", stored
      [ 0.14, 0.12, 0.08, 0,
        0.45, 0.39, 0.28, 0,
        0.05, 0.04, 0.03, 0,
        0, 0, 0, 1 ]),
    ("monochrome", stored
      [ 0.299, 0.299, 0.299, 0,
        0.587, 0.587, 0.587, 0,
        0.114, 0.114, 0.114, 0,
        0, 0, 0, 1 ]) ]

/-- The names of the convolution presets. -/
def compositionNames : List String :=
  ["none", "box", "gaussian", "emboss", "sharpness", "laplacian"]

/-- The names of the colour presets. -/
def colorNames : List String :=
  ["none", "bgra", "sepia", "monochrome"]

/-! ## GLSL values -/

/-- A GLSL `vec2`. -/
structure Vec2 where
  x : ℚ
  y : ℚ
deriving DecidableEq

/-- A GLSL `vec4`; for a colour the components are red, green, blue, alpha. -/
structure Vec4 where
  x : ℚ
  y : ℚ
  z : ℚ
  w : ℚ
deriving DecidableEq

/-- GLSL `vec2 + vec2`, componentwise. -/
def Vec2.add (a b : Vec2) : Vec2 :=
  ⟨a.x + b.x, a.y + b.y⟩

/-- GLSL `vec4 + vec4`, componentwise. -/
def Vec4.add (a b : Vec4) : Vec4 :=
  ⟨a.x + b.x, a.y + b.y, a.z + b.z, a.w + b.w⟩

/-- GLSL `float * vec4`, componentwise. -/
def Vec4.scale (k : ℚ) (v : Vec4) : Vec4 :=
  ⟨k * v.x, k * v.y, k * v.z, k * v.w⟩

/-- A function applied to both components. -/
def Vec2.map (f : ℚ → ℚ) (v : Vec2) : Vec2 :=
  ⟨f v.x, f v.y⟩

/-- A function applied to the four components. -/
def Vec4.map (f : ℚ → ℚ) (v : Vec4) : Vec4 :=
  ⟨f v.x, f v.y, f v.z, f v.w⟩

/-- Element `i` of a uniform array of floats; an element never uploaded is 0. -/
def elem (a : Float32Array) (i : Nat) : ℚ :=
  a.getD i 0

/-- The `vec2` array that `uniform2fv` fills from a flat array: consecutive pairs. -/
def vec2Array : Float32Array → List Vec2
  | a :: b :: rest => ⟨a, b⟩ :: vec2Array rest
  | _ => []

/-- Element `i` of a uniform array of `vec2`; an element never uploaded is (0, 0). -/
def elem2 (a : List Vec2) (i : Nat) : Vec2 :=
  a.getD i ⟨0, 0⟩

/-- GLSL `mat4 * vec4`, computed without rounding, for the matrix that
`uniformMatrix4fv (location, false, m)` uploads: with `transpose` false the 16 elements are
the four columns, one after the other. -/
def mat4MulVec4 (m : Float32Array) (v : Vec4) : Vec4 :=
  ⟨elem m 0 * v.x + elem m 4 * v.y + elem m 8 * v.z + elem m 12 * v.w,
   elem m 1 * v.x + elem m 5 * v.y + elem m 9 * v.z + elem m 13 * v.w,
   elem m 2 * v.x + elem m 6 * v.y + elem m 10 * v.z + elem m 14 * v.w,
   elem m 3 * v.x + elem m 7 * v.y + elem m 11 * v.z + elem m 15 * v.w⟩

/-- A bound texture seen through `texture2D (image, p)`: the colour sampled at a coordinate. -/
abbrev Sampler2D := Vec2 → Vec4

/-- The uniforms of the fragment shader `FRAGMENT` (video.js, lines 246-249). -/
structure Uniforms where
  image : Sampler2D
  offset : List Vec2
  kernel : Float32Array
  color : Float32Array

/-- The loop of `FRAGMENT` (video.js, lines 251-254), computed without rounding:
`sum = vec4 (0); for (i = 0; i < 9; ++i) sum += kernel[i] * texture2D (image, uvPoint + offset[i])`. -/
def convolve (u : Uniforms) (uvPoint : Vec2) : Vec4 :=
  (List.range 9).foldl
    (fun sum i => sum.add (Vec4.scale (elem u.kernel i) (u.image (uvPoint.add (elem2 u.offset i)))))
    ⟨0, 0, 0, 0⟩

/-- The body of `main` in `FRAGMENT` (video.js, lines 250-256), computed without rounding:
`gl_FragColor = color * sum`. -/
def fragmentMain (u : Uniforms) (uvPoint : Vec2) : Vec4 :=
  mat4MulVec4 u.color (convolve u uvPoint)

/-- The loop of `FRAGMENT` as a GPU computes it (`precision mediump float`): every uniform
read, every sample, every product and every sum is rounded by `fl` to the precision of the
shader.  With `fl` the identity this is `convolve`. -/
def convolveFl (fl : ℚ → ℚ) (u : Uniforms) (uvPoint : Vec2) : Vec4 :=
  (List.range 9).foldl
    (fun sum i =>
      (sum.add
        ((Vec4.scale (fl (elem u.kernel i))
            ((u.image ((uvPoint.add ((elem2 u.offset i).map fl)).map fl)).map fl)).map fl)).map
        fl)
    ⟨0, 0, 0, 0⟩

/-- GLSL `mat4 * vec4` as a GPU computes it: the products of a row are added from left to
right, every matrix element, product and sum rounded by `fl`. -/
def mat4MulVec4Fl (fl : ℚ → ℚ) (m : Float32Array) (v : Vec4) : Vec4 :=
  ⟨fl (fl (fl (fl (fl (elem m 0) * v.x) + fl (fl (elem m 4) * v.y)) +
      fl (fl (elem m 8) * v.z)) + fl (fl (elem m 12) * v.w)),
   fl (fl (fl (fl (fl (elem m 1) * v.x) + fl (fl (elem m 5) * v.y)) +
      fl (fl (elem m 9) * v.z)) + fl (fl (elem m 13) * v.w)),
   fl (fl (fl (fl (fl (elem m 2) * v.x) + fl (fl (elem m 6) * v.y)) +
      fl (fl (elem m 10) * v.z)) + fl (fl (elem m 14) * v.w)),
   fl (fl (fl (fl (fl (elem m 3) * v.x) + fl (fl (elem m 7) * v.y)) +
      fl (fl (elem m 11) * v.z)) + fl (fl (elem m 15) * v.w))⟩

/-- The body of `main` in `FRAGMENT` as a GPU computes it. -/
def fragmentMainFl (fl : ℚ → ℚ) (u : Uniforms) (uvPoint : Vec2) : Vec4 :=
  mat4MulVec4Fl fl u.color (convolveFl fl u uvPoint)

/-- The quotient `1 / width` (and `1 / height`) of `handleCaptureSuccess_` (video.js, lines
321-322); `none` stands for `Infinity`, the quotient by 0. -/
def step (size : Nat) : Option ℚ :=
  if size = 0 then none else some (1 / (size : ℚ))

/-- The array passed to `uniform2fv (offsets, ...)` (video.js, lines 324-334); `none` stands
for an array that holds `Infinity`.  The width and the height of a video element are
`unsigned long`, below 2^32, so that a finite step is in the normal range. -/
def sampleOffsets (width height : Nat) : Option Float32Array :=
  match step width, step height with
  | some stepWidth, some stepHeight =>
    some (stored
      [ -stepWidth, -stepHeight,
        0, -stepHeight,
        stepWidth, -stepHeight,
        -stepWidth, 0,
        0, 0,
        stepWidth, 0,
        -stepWidth, stepHeight,
        0, stepHeight,
        stepWidth, stepHeight ])
  | _, _ => none

/-- A frame of one colour: every sample of it is `c`. -/
def Uniform (image : Sampler2D) (c : Vec4) : Prop :=
  ∀ p, image p = c

/-! ## The browser: objects, calls and the state a handler runs in -/

/-- The WebGL enumerants the program names. -/
inductive GLenum
  | VERTEX_SHADER | FRAGMENT_SHADER | COMPILE_STATUS
  | ARRAY_BUFFER | STATIC_DRAW | FLOAT
  | TEXTURE_2D | TEXTURE_WRAP_S | TEXTURE_WRAP_T | TEXTURE_MIN_FILTER | TEXTURE_MAG_FILTER
  | CLAMP_TO_EDGE | LINEAR | RGBA | UNSIGNED_BYTE | TRIANGLE_STRIP
deriving DecidableEq, Repr

/-- A shader object: its identity and the type it was created with. -/
structure WebGLShader where
  id : Nat
  type : GLenum
deriving DecidableEq

/-- A media stream handed over by `getUserMedia`; `url` is the object URL the browser gives it. -/
structure MediaStream where
  url : String
deriving DecidableEq

/-- The element `<video id="input">`. -/
structure HTMLVideoElement where
  width : Nat
  height : Nat
  src : Option String
deriving DecidableEq

/-- A `<select>` element: the value of its selected option. -/
structure HTMLSelectElement where
  value : String
deriving DecidableEq

/-- What a WebGL implementation answers to the queries of the program.
A failure inside WebGL is recorded in its error flag and in these answers; the
call itself returns to the caller. -/
structure WebGLRenderingContext where
  /-- The answer of `getShaderParameter (shader, COMPILE_STATUS)` for the shader of a type. -/
  compileStatus : GLenum → Bool
  /-- The answer of `getShaderInfoLog (shader)` for the shader of a type. -/
  shaderInfoLog : GLenum → String
  /-- Whether `linkProgram` succeeds on the two shaders (the program's LINK_STATUS). -/
  linkStatus : Bool
  /-- The index of an attribute in the linked program. -/
  attribLocation : String → Int
  /-- The location of a uniform in the linked program. -/
  uniformLocation : String → Option Nat

/-- The callbacks the program hands to the browser. -/
inductive Callback
  | handleAnimationFrame_
deriving DecidableEq, Repr

/-- A call the program makes on the browser, with its arguments.  For `uniform2fv` the
array is `none` when it holds `Infinity`. -/
inductive Call
  | createObjectURL (stream : MediaStream)
  | createShader (type : GLenum)
  | shaderSource (shader : WebGLShader) (source : String)
  | compileShader (shader : WebGLShader)
  | getShaderParameter (shader : WebGLShader) (pname : GLenum)
  | getShaderInfoLog (shader : WebGLShader)
  | createProgram
  | attachShader (program : Nat) (shader : WebGLShader)
  | linkProgram (program : Nat)
  | useProgram (program : Nat)
  | createBuffer
  | bindBuffer (target : GLenum) (buffer : Nat)
  | bufferData (target : GLenum) (data : Float32Array) (usage : GLenum)
  | getAttribLocation (program : Nat) (name : String)
  | enableVertexAttribArray (index : Int)
  | vertexAttribPointer (index : Int) (size : Nat) (type : GLenum) (normalized : Bool)
      (stride : Nat) (offset : Nat)
  | createTexture
  | bindTexture (target : GLenum) (texture : Nat)
  | texParameteri (target : GLenum) (pname : GLenum) (param : GLenum)
  | getUniformLocation (program : Nat) (name : String)
  | uniform2fv (location : Option Nat) (v : Option Float32Array)
  | uniform1fv (location : Option Nat) (v : Value)
  | uniformMatrix4fv (location : Option Nat) (transpose : Bool) (v : Value)
  | texImage2D (target : GLenum) (level : Nat) (internalformat : GLenum) (format : GLenum)
      (type : GLenum) (source : HTMLVideoElement)
  | drawArrays (mode : GLenum) (first : Nat) (count : Nat)
  | requestAnimationFrame (callback : Callback)
deriving DecidableEq

/-- The fields of a `dena.Application` (video.js, lines 44-113). -/
structure Application where
  video_ : HTMLVideoElement
  context_ : Option WebGLRenderingContext
  compositeFilter_ : HTMLSelectElement
  colorFilter_ : HTMLSelectElement
  texture_ : Option Nat
  kernel_ : Option Nat
  color_ : Option Nat

/-- The state a handler runs in: the application object, the calls made on the browser so
far (oldest first, a call that ends in an exception included), the number of objects the
context has created, and the animation-frame callbacks waiting for the next frame. -/
structure State where
  self : Application
  calls : List Call
  objects : Nat
  pending : List Callback

/-- How a piece of JavaScript completes: normally with a value, or by a thrown `Error`. -/
inductive Completion (α : Type)
  | normal (value : α)
  | throw (message : String)
deriving DecidableEq

/-- A piece of JavaScript: from a state to its completion and the state it leaves. -/
def Js (α : Type) : Type :=
  State → Completion α × State

/-- Sequencing: a thrown error skips everything after it. -/
def Js.bind {α β : Type} (m : Js α) (f : α → Js β) : Js β :=
  fun s =>
    match m s with
    | (Completion.normal a, s1) => f a s1
    | (Completion.throw e, s1) => (Completion.throw e, s1)

instance : Monad Js where
  pure a := fun s => (Completion.normal a, s)
  bind := Js.bind

/-- The statement `throw new Error (message)`. -/
def raise {α : Type} (message : String) : Js α :=
  fun s => (Completion.throw message, s)

/-- Reading `this`. -/
def getThis : Js Application :=
  fun s => (Completion.normal s.self, s)

/-- Assigning to fields of `this`. -/
def setThis (f : Application → Application) : Js Unit :=
  fun s => (Completion.normal (), { s with self := f s.self })

/-- A call on the browser that returns to the caller and whose result the program does not
use. -/
def call (c : Call) : Js Unit :=
  fun s => (Completion.normal (), { s with calls := s.calls ++ [c] })

/-- A call that creates an object: the object gets the next free identity. -/
def create (c : Call) : Js Nat :=
  fun s => (Completion.normal s.objects, { s with calls := s.calls ++ [c], objects := s.objects + 1 })

/-- The call `window.requestAnimationFrame (callback)`: the callback waits for the next frame. -/
def requestAnimationFrame (callback : Callback) : Js Unit :=
  fun s => (Completion.normal (),
    { s with calls := s.calls ++ [Call.requestAnimationFrame callback],
             pending := s.pending ++ [callback] })

/-- The call `context.createShader (type)`. -/
def createShader (type : GLenum) : Js WebGLShader := do
  let id ← create (Call.createShader type)
  pure ⟨id, type⟩

/-- The call `context.getShaderParameter (shader, pname)`. -/
def getShaderParameter (context : WebGLRenderingContext) (shader : WebGLShader)
    (pname : GLenum) : Js Bool := do
  call (Call.getShaderParameter shader pname)
  pure (context.compileStatus shader.type)

/-- The call `context.getShaderInfoLog (shader)`. -/
def getShaderInfoLog (context : WebGLRenderingContext) (shader : WebGLShader) : Js String := do
  call (Call.getShaderInfoLog shader)
  pure (context.shaderInfoLog shader.type)

/-- The call `context.getAttribLocation (program, name)`: -1 when the program is not linked. -/
def getAttribLocation (context : WebGLRenderingContext) (program : Nat) (name : String) :
    Js Int := do
  call (Call.getAttribLocation program name)
  pure (if context.linkStatus then context.attribLocation name else -1)

/-- The call `context.getUniformLocation (program, name)`: null when the program is not linked. -/
def getUniformLocation (context : WebGLRenderingContext) (program : Nat) (name : String) :
    Js (Option Nat) := do
  call (Call.getUniformLocation program name)
  pure (if context.linkStatus then context.uniformLocation name else none)

/-- The call `context.uniform1fv (location, v)`.  The binding turns `v` into an array of
floats before WebGL sees it and throws a TypeError when `v` is not an array: for
`undefined`, for a function and for a plain object. -/
def uniform1fv (location : Option Nat) (v : Value) : Js Unit := do
  call (Call.uniform1fv location v)
  match v with
  | Value.float32Array _ => pure ()
  | _ => raise "TypeError"

/-- The call `context.uniformMatrix4fv (location, transpose, v)`, with the same conversion
of `v`. -/
def uniformMatrix4fv (location : Option Nat) (transpose : Bool) (v : Value) : Js Unit := do
  call (Call.uniformMatrix4fv location transpose v)
  match v with
  | Value.float32Array _ => pure ()
  | _ => raise "TypeError"

/-- The call `window.URL.createObjectURL (stream)`. -/
def createObjectURL (stream : MediaStream) : Js String := do
  call (Call.createObjectURL stream)
  pure stream.url

/-- The source text `VERTEX` (video.js, lines 227-235). -/
def VERTEX : String :=
  "attribute vec2 position;" ++
  "attribute vec2 texture;" ++
  "varying vec2 uvPoint;" ++
  "void main() \x7b" ++
    "gl_Position = " ++
      "vec4(2.0 * position[0] - 1.0, -2.0 * position[1] + 1.0, 0, 1);" ++
    "uvPoint = texture;" ++
  "\x7d"

/-- The source text `FRAGMENT` (video.js, lines 243-256). -/
def FRAGMENT : String :=
  "precision mediump float;" ++
  "varying vec2 uvPoint;" ++
  "uniform sampler2D image;" ++
  "uniform vec2 offset[9];" ++
  "uniform float kernel[9];" ++
  "uniform mat4 color;" ++
  "void main() \x7b" ++
    "vec4 sum = vec4(0.0, 0.0, 0.0, 0.0);" ++
    "for (int i = 0; i < 9; ++i) \x7b" ++
      "sum += kernel[i] * texture2D(image, uvPoint + offset[i]);" ++
    "\x7d" ++
    "gl_FragColor = color * sum;" ++
  "\x7d"

/-! ## The two handlers -/

/-- The method `dena.Application.prototype.handleCaptureSuccess_` (video.js, lines 208-352). -/
def handleCaptureSuccess_ (stream : Option MediaStream) : Js Unit := do
  match stream with
  | none => raise "This browser does not provide a media stream."
  | some stream =>
  let self ← getThis
  let width := self.video_.width
  let height := self.video_.height
  let url ← createObjectURL stream
  setThis fun self => { self with video_ := { self.video_ with src := some url } }
  let self ← getThis
  match self.context_ with
  | none => raise "This browser does not support the WebGL API."
  | some context =>
  let vertexShader ← createShader GLenum.VERTEX_SHADER
  call (Call.shaderSource vertexShader VERTEX)
  call (Call.compileShader vertexShader)
  let vertexStatus ← getShaderParameter context vertexShader GLenum.COMPILE_STATUS
  if !vertexStatus then do
    let log ← getShaderInfoLog context vertexShader
    raise ("ERROR: " ++ log)
  else
  let fragmentShader ← createShader GLenum.FRAGMENT_SHADER
  call (Call.shaderSource fragmentShader FRAGMENT)
  call (Call.compileShader fragmentShader)
  let fragmentStatus ← getShaderParameter context fragmentShader GLenum.COMPILE_STATUS
  if !fragmentStatus then do
    let log ← getShaderInfoLog context fragmentShader
    raise ("ERROR: " ++ log)
  else
  let program ← create Call.createProgram
  call (Call.attachShader program vertexShader)
  call (Call.attachShader program fragmentShader)
  call (Call.linkProgram program)
  call (Call.useProgram program)
  let positionBuffer ← create Call.createBuffer
  call (Call.bindBuffer GLenum.ARRAY_BUFFER positionBuffer)
  call (Call.bufferData GLenum.ARRAY_BUFFER [0, 0, 1, 0, 0, 1, 1, 1] GLenum.STATIC_DRAW)
  let positionLocation ← getAttribLocation context program "position"
  call (Call.enableVertexAttribArray positionLocation)
  call (Call.vertexAttribPointer positionLocation 2 GLenum.FLOAT false 0 0)
  let textureBuffer ← create Call.createBuffer
  call (Call.bindBuffer GLenum.ARRAY_BUFFER textureBuffer)
  call (Call.bufferData GLenum.ARRAY_BUFFER [0, 0, 1, 0, 0, 1, 1, 1] GLenum.STATIC_DRAW)
  let textureLocation ← getAttribLocation context program "texture"
  call (Call.enableVertexAttribArray textureLocation)
  call (Call.vertexAttribPointer textureLocation 2 GLenum.FLOAT false 0 0)
  let texture ← create Call.createTexture
  call (Call.bindTexture GLenum.TEXTURE_2D texture)
  call (Call.texParameteri GLenum.TEXTURE_2D GLenum.TEXTURE_WRAP_S GLenum.CLAMP_TO_EDGE)
  call (Call.texParameteri GLenum.TEXTURE_2D GLenum.TEXTURE_WRAP_T GLenum.CLAMP_TO_EDGE)
  call (Call.texParameteri GLenum.TEXTURE_2D GLenum.TEXTURE_MIN_FILTER GLenum.LINEAR)
  call (Call.texParameteri GLenum.TEXTURE_2D GLenum.TEXTURE_MAG_FILTER GLenum.LINEAR)
  let offsets ← getUniformLocation context program "offset"
  call (Call.uniform2fv offsets (sampleOffsets width height))
  let kernel ← getUniformLocation context program "kernel"
  setThis fun self => { self with kernel_ := kernel }
  let self ← getThis
  uniform1fv self.kernel_ (COMPOSITION_.index self.compositeFilter_.value)
  let color ← getUniformLocation context program "color"
  setThis fun self => { self with color_ := color }
  let self ← getThis
  uniformMatrix4fv self.color_ false (COLOR_.index self.colorFilter_.value)
  requestAnimationFrame Callback.handleAnimationFrame_

/-- The method `dena.Application.prototype.updateFrame_` (video.js, lines 369-395). -/
def updateFrame_ (_timestamp : Nat) : Js Unit := do
  let self ← getThis
  match self.context_ with
  | none => raise "TypeError" -- a method call on `null` is a TypeError of the language
  | some _ =>
  uniform1fv self.kernel_ (COMPOSITION_.index self.compositeFilter_.value)
  uniformMatrix4fv self.color_ false (COLOR_.index self.colorFilter_.value)
  call (Call.texImage2D GLenum.TEXTURE_2D 0 GLenum.RGBA GLenum.RGBA GLenum.UNSIGNED_BYTE
    self.video_)
  call (Call.drawArrays GLenum.TRIANGLE_STRIP 0 4)
  requestAnimationFrame Callback.handleAnimationFrame_

/-- The calls that compile a shader, link a program or allocate a shader, program, buffer or
texture. -/
def Call.isBuild : Call → Bool
  | Call.createShader _ => true
  | Call.shaderSource _ _ => true
  | Call.compileShader _ => true
  | Call.createProgram => true
  | Call.attachShader _ _ => true
  | Call.linkProgram _ => true
  | Call.createBuffer => true
  | Call.bufferData _ _ _ => true
  | Call.createTexture => true
  | _ => false

/-- The calls that set the value of a uniform. -/
def Call.isUniformUpload : Call → Bool
  | Call.uniform2fv _ _ => true
  | Call.uniform1fv _ _ => true
  | Call.uniformMatrix4fv _ _ _ => true
  | _ => false

/-- The calls a run of `updateFrame_` makes when none of them throws, for an application
object. -/
def tickCalls (self : Application) : List Call :=
  [ Call.uniform1fv self.kernel_ (COMPOSITION_.index self.compositeFilter_.value),
    Call.uniformMatrix4fv self.color_ false (COLOR_.index self.colorFilter_.value),
    Call.texImage2D GLenum.TEXTURE_2D 0 GLenum.RGBA GLenum.RGBA GLenum.UNSIGNED_BYTE self.video_,
    Call.drawArrays GLenum.TRIANGLE_STRIP 0 4,
    Call.requestAnimationFrame Callback.handleAnimationFrame_ ]

/-- A context on which both shaders compile and the program does not link. -/
def unlinkedContext : WebGLRenderingContext where
  compileStatus := fun _ => true
  shaderInfoLog := fun _ => ""
  linkStatus := false
  attribLocation := fun _ => 0
  uniformLocation := fun _ => some 0

/-- A fresh application object on a 640x480 video, both selections `none`. -/
def freshApplication (context : Option WebGLRenderingContext) : Application where
  video_ := ⟨640, 480, none⟩
  context_ := context
  compositeFilter_ := ⟨"none"⟩
  colorFilter_ := ⟨"none"⟩
  texture_ := none
  kernel_ := none
  color_ := none

/-- The state before any handler has run. -/
def initialState (self : Application) : State where
  self := self
  calls := []
  objects := 0
  pending := []

/-- A context on which both shaders compile and the program links. -/
def workingContext : WebGLRenderingContext where
  compileStatus := fun _ => true
  shaderInfoLog := fun _ => ""
  linkStatus := true
  attribLocation := fun name => if name = "position" then 0 else 1
  uniformLocation := fun name =>
    if name = "offset" then some 0 else if name = "kernel" then some 1 else some 2

/-- The image, offsets, kernel and colour matrix of a 2x2 solid red frame drawn with
`none` and `bgra`. -/
def redFrame : Uniforms where
  image := fun _ => ⟨255, 0, 0, 255⟩
  offset := vec2Array ((sampleOffsets 2 2).getD [])
  kernel := [0, 0, 0, 0, 1, 0, 0, 0, 0]
  color := [0, 0, 1, 0, 0, 1, 0, 0, 1, 0, 0, 0, 0, 0, 0, 1]

/-- A frame of the one colour `c` drawn with the kernel `box` as its array stores it and
the colour matrix `none`, on a 640x480 video. -/
def boxFrame (c : Vec4) : Uniforms where
  image := fun _ => c
  offset := vec2Array ((sampleOffsets 640 480).getD [])
  kernel := stored [1 / 9, 1 / 9, 1 / 9, 1 / 9, 1 / 9, 1 / 9, 1 / 9, 1 / 9, 1 / 9]
  color := [1, 0, 0, 0, 0, 1, 0, 0, 0, 0, 1, 0, 0, 0, 0, 1]

/-- The colour a frame of byte value 85 is sampled as in binary32: the nearest value to
85 / 255 in the three colour channels, alpha 1. -/
def grey : Vec4 :=
  ⟨11184811 / 33554432, 11184811 / 33554432, 11184811 / 33554432, 1⟩

/-- The application object after setup on `workingContext`, with the options `box` and
`sepia` picked. -/
def readyApplication : Application where
  video_ := ⟨640, 480, some "blob:camera"⟩
  context_ := some workingContext
  compositeFilter_ := ⟨"box"⟩
  colorFilter_ := ⟨"sepia"⟩
  texture_ := none
  kernel_ := some 1
  color_ := some 2

/-- The application object after setup, with a composite option that is no key of
`COMPOSITION_` and no name of `Object.prototype`. -/
def strayApplication : Application :=
  { readyApplication with compositeFilter_ := ⟨"blur"⟩ }

/-- The application object after setup, with a composite option that is a name of
`Object.prototype`. -/
def inheritedApplication : Application :=
  { readyApplication with compositeFilter_ := ⟨"constructor"⟩ }

/-- A state between two frames of the render loop: setup is done and one callback waits. -/
def readyState (self : Application) : State where
  self := self
  calls := []
  objects := 6
  pending := [Callback.handleAnimationFrame_]

/-- The location and the array of a `uniform2fv` call, if the call is one. -/
def Call.offsets? : Call → Option (Option Nat × Option Float32Array)
  | Call.uniform2fv location v => some (location, v)
  | _ => none

/-- The user picks an option in each of the two `<select>` elements. -/
def select (composite color : String) (s : State) : State :=
  { s with self := { s.self with compositeFilter_ := ⟨composite⟩, colorFilter_ := ⟨color⟩ } }

/-- The function a callback stands for. -/
def Callback.run : Callback → Nat → Js Unit
  | Callback.handleAnimationFrame_ => updateFrame_

/-- One animation frame of the browser: the callbacks that were waiting are run in order;
the ones they register wait for the frame after. -/
def animationFrame (timestamp : Nat) (s : State) : State :=
  s.pending.foldl (fun state callback => (callback.run timestamp state).2)
    { s with pending := [] }

/-- A run of the render loop: before each frame the user picks the given options. -/
def frames : List (String × String) → Nat → State → State
  | [], _, s => s
  | (composite, color) :: rest, timestamp, s =>
    frames rest (timestamp + 1) (animationFrame timestamp (select composite color s))

/-! ## Lemmas on numbers and tables -/

theorem range_nine : List.range 9 = [0, 1, 2, 3, 4, 5, 6, 7, 8] := by
  decide

theorem log2Fuel_spec : ∀ (fuel n : Nat), n ≤ fuel → 1 ≤ n →
    2 ^ log2Fuel fuel n ≤ n ∧ n < 2 ^ (log2Fuel fuel n + 1)
  | 0, n, h, h1 => by omega
  | fuel + 1, n, h, h1 => by
    unfold log2Fuel
    split_ifs with h2
    · constructor
      · simpa using h1
      · simpa using h2
    · obtain ⟨ha, hb⟩ := log2Fuel_spec fuel (n / 2) (by omega) (by omega)
      generalize log2Fuel fuel (n / 2) = l at ha hb ⊢
      constructor
      · rw [pow_succ]
        generalize 2 ^ l = t at ha ⊢
        omega
      · rw [pow_succ]
        generalize 2 ^ (l + 1) = t at hb ⊢
        omega

theorem floorLog2_spec (n : Nat) (h : 1 ≤ n) :
    2 ^ floorLog2 n ≤ n ∧ n < 2 ^ (floorLog2 n + 1) :=
  log2Fuel_spec n n (le_refl n) h

theorem two_zpow_eq (z : Int) : (2 : ℚ) ^ z = (2 : ℚ) ^ z.toNat / (2 : ℚ) ^ (-z).toNat := by
  rcases le_total 0 z with h | h
  · have h1 : (-z).toNat = 0 := by omega
    have h2 : ((z.toNat : Int)) = z := Int.toNat_of_nonneg h
    rw [h1, pow_zero, div_one]
    conv_lhs => rw [← h2]
    exact zpow_natCast 2 z.toNat
  · have h1 : z.toNat = 0 := by omega
    have h2 : (((-z).toNat : Int)) = -z := Int.toNat_of_nonneg (by omega)
    rw [h1, pow_zero, one_div]
    have h3 : z = -(((-z).toNat : Int)) := by omega
    conv_lhs => rw [h3]
    rw [zpow_neg, zpow_natCast]

theorem roundHalfEven_error (a b : Nat) (hb : 0 < b) :
    |(roundHalfEven a b : ℚ) - (a : ℚ) / b| ≤ 1 / 2 := by
  have hbq : (0 : ℚ) < b := by exact_mod_cast hb
  have hdiv : (a : ℚ) / b = (a / b : Nat) + ((a % b : Nat) : ℚ) / b := by
    have h := Nat.div_add_mod a b
    have h' : (a : ℚ) = (b : ℚ) * ((a / b : Nat) : ℚ) + ((a % b : Nat) : ℚ) := by
      exact_mod_cast h.symm
    field_simp
    linarith
  have hlt : a % b < b := Nat.mod_lt a hb
  rw [hdiv]
  unfold roundHalfEven
  simp only
  generalize a / b = q at *
  generalize hr : a % b = r at *
  split_ifs with h1 h2 h3
  · have : ((r : ℚ)) / b ≤ 1 / 2 := by
      rw [div_le_iff₀ hbq]
      have : (2 * r : ℚ) < b := by exact_mod_cast h1
      linarith
    have h0 : (0 : ℚ) ≤ (r : ℚ) / b := by positivity
    rw [abs_le]; constructor <;> linarith
  · have : (1 : ℚ) / 2 ≤ (r : ℚ) / b := by
      rw [le_div_iff₀ hbq]
      have : (b : ℚ) < 2 * r := by exact_mod_cast h2
      linarith
    have h1' : (r : ℚ) / b ≤ 1 := by
      rw [div_le_iff₀ hbq]
      have : (r : ℚ) < b := by exact_mod_cast hlt
      linarith
    push_cast
    rw [abs_le]; constructor <;> linarith
  · have heq : 2 * r = b := by omega
    have : (r : ℚ) / b = 1 / 2 := by
      rw [div_eq_iff hbq.ne']
      have : (2 * r : ℚ) = b := by exact_mod_cast heq
      linarith
    rw [abs_le]; constructor <;> linarith
  · have heq : 2 * r = b := by omega
    have : (r : ℚ) / b = 1 / 2 := by
      rw [div_eq_iff hbq.ne']
      have : (2 * r : ℚ) = b := by exact_mod_cast heq
      linarith
    push_cast
    rw [abs_le]; constructor <;> linarith

theorem dyadic_eq (m : Nat) (k : Int) : dyadic (m, k) = (m : ℚ) * (2 : ℚ) ^ k := by
  unfold dyadic
  rw [Rat.mkRat_eq_div, two_zpow_eq k]
  push_cast
  ring

/-- The exponent chosen by `roundBits` is at most the binary logarithm of `n / d`. -/
theorem exponent_le (n d : Nat) (hn : 0 < n) (hd : 0 < d) :
    (2 : ℚ) ^ (if n * 2 ^ (-((floorLog2 n : Int) - (floorLog2 d : Int))).toNat <
        d * 2 ^ ((floorLog2 n : Int) - (floorLog2 d : Int)).toNat
      then (floorLog2 n : Int) - (floorLog2 d : Int) - 1
      else (floorLog2 n : Int) - (floorLog2 d : Int)) ≤ (n : ℚ) / d := by
  obtain ⟨hna, -⟩ := floorLog2_spec n hn
  obtain ⟨-, hdb⟩ := floorLog2_spec d hd
  have hdq : (0 : ℚ) < d := by exact_mod_cast hd
  generalize floorLog2 n = a at *
  generalize floorLog2 d = b at *
  split_ifs with h
  · -- 2 ^ (a - b - 1) = 2 ^ a / 2 ^ (b + 1)
    have h1 : (2 : ℚ) ^ ((a : Int) - (b : Int) - 1) = (2 : ℚ) ^ a / (2 : ℚ) ^ (b + 1) := by
      have : ((a : Int) - (b : Int) - 1) = (a : Int) - ((b + 1 : Nat) : Int) := by
        push_cast; ring
      rw [this, zpow_sub₀ (by norm_num : (2 : ℚ) ≠ 0), zpow_natCast, zpow_natCast]
    rw [h1, div_le_div_iff₀ (by positivity) hdq]
    have h2 : ((2 : ℚ) ^ a) ≤ n := by exact_mod_cast hna
    have h3 : (d : ℚ) ≤ (2 : ℚ) ^ (b + 1) := by exact_mod_cast hdb.le
    have h4 : (0 : ℚ) ≤ (2 : ℚ) ^ a := by positivity
    calc (2 : ℚ) ^ a * d ≤ (2 : ℚ) ^ a * (2 : ℚ) ^ (b + 1) := by
          exact mul_le_mul_of_nonneg_left h3 h4
      _ ≤ n * (2 : ℚ) ^ (b + 1) := by
          exact mul_le_mul_of_nonneg_right h2 (by positivity)
  · rw [two_zpow_eq, div_le_div_iff₀ (by positivity) hdq]
    have h' : d * 2 ^ ((a : Int) - (b : Int)).toNat ≤ n * 2 ^ (-((a : Int) - (b : Int))).toNat :=
      not_lt.mp h
    have : ((d : ℚ) * (2 : ℚ) ^ ((a : Int) - (b : Int)).toNat) ≤
        (n : ℚ) * (2 : ℚ) ^ (-((a : Int) - (b : Int))).toNat := by
      exact_mod_cast h'
    linarith

/-- The value `roundBits` finds is within half a unit of its last place of `n / d`, which
is at most `n / d` over `2 ^ p`. -/
theorem roundBits_error (p n d : Nat) (hn : 0 < n) (hd : 0 < d) :
    |dyadic (roundBits p n d) - (n : ℚ) / d| ≤ (n : ℚ) / d / 2 ^ p := by
  have he := exponent_le n d hn hd
  unfold roundBits
  simp only
  generalize (if n * 2 ^ (-((floorLog2 n : Int) - (floorLog2 d : Int))).toNat <
        d * 2 ^ ((floorLog2 n : Int) - (floorLog2 d : Int)).toNat
      then (floorLog2 n : Int) - (floorLog2 d : Int) - 1
      else (floorLog2 n : Int) - (floorLog2 d : Int)) = e at *
  generalize hk : e - ((p : Int) - 1) = k
  rw [dyadic_eq]
  have hdq : (0 : ℚ) < d := by exact_mod_cast hd
  have hB : 0 < d * 2 ^ k.toNat := Nat.mul_pos hd (by positivity)
  have hround := roundHalfEven_error (n * 2 ^ (-k).toNat) (d * 2 ^ k.toNat) hB
  have hk2 : (0 : ℚ) < (2 : ℚ) ^ k := by positivity
  have hAB : (((n * 2 ^ (-k).toNat : Nat) : ℚ)) / ((d * 2 ^ k.toNat : Nat) : ℚ) =
      (n : ℚ) / d / (2 : ℚ) ^ k := by
    rw [two_zpow_eq k]
    push_cast
    field_simp
  rw [hAB] at hround
  generalize (roundHalfEven (n * 2 ^ (-k).toNat) (d * 2 ^ k.toNat) : ℚ) = m at hround ⊢
  have hfac : m * (2 : ℚ) ^ k - (n : ℚ) / d = (2 : ℚ) ^ k * (m - (n : ℚ) / d / (2 : ℚ) ^ k) := by
    field_simp
    ring
  rw [hfac, abs_mul, abs_of_pos hk2]
  have hke : (2 : ℚ) ^ k = (2 : ℚ) ^ e * 2 / (2 : ℚ) ^ p := by
    rw [← hk]
    have : e - ((p : Int) - 1) = e + 1 - (p : Int) := by ring
    rw [this, zpow_sub₀ (by norm_num : (2 : ℚ) ≠ 0), zpow_add₀ (by norm_num : (2 : ℚ) ≠ 0),
      zpow_natCast, zpow_one]
  have hp : (0 : ℚ) < (2 : ℚ) ^ p := by positivity
  calc (2 : ℚ) ^ k * |m - (n : ℚ) / d / (2 : ℚ) ^ k| ≤ (2 : ℚ) ^ k * (1 / 2) := by
        exact mul_le_mul_of_nonneg_left hround hk2.le
    _ = (2 : ℚ) ^ e / (2 : ℚ) ^ p := by rw [hke]; ring
    _ ≤ (n : ℚ) / d / 2 ^ p := by
        exact div_le_div_of_nonneg_right he hp.le

/-- Rounding a positive number to `p` bits moves it by at most its `2 ^ p`-th part. -/
theorem roundRat_error (p : Nat) (q : ℚ) (hq : 0 < q) : |roundRat p q - q| ≤ q / 2 ^ p := by
  have hnum : 0 < q.num := Rat.num_pos.mpr hq
  have hnat : 0 < q.num.natAbs := Int.natAbs_pos.mpr hnum.ne'
  have hqeq : ((q.num.natAbs : ℚ)) / (q.den : ℚ) = q := by
    have h2 : ((q.num.natAbs : ℚ)) = (q.num : ℚ) := by
      rw [Nat.cast_natAbs, abs_of_pos hnum]
    rw [h2]
    exact Rat.num_div_den q
  have h := roundBits_error p q.num.natAbs q.den hnat q.den_pos
  rw [hqeq] at h
  unfold roundRat
  simp only [hnum.ne', hnum, if_true, if_false]
  exact h

/-- The binary32 value kept for a positive number is within its `2 ^ 23`-th part of it. -/
theorem toFloat32_error (q : ℚ) (hq : 0 < q) : |toFloat32 q - q| ≤ q / 2 ^ 23 := by
  have h53 := roundRat_error 53 q hq
  have hy : 0 < roundRat 53 q := by
    have := (abs_le.mp h53).1
    have h2 : q / 2 ^ 53 ≤ q / 2 := by
      apply div_le_div_of_nonneg_left hq.le (by norm_num) (by norm_num)
    linarith
  have h24 := roundRat_error 24 (roundRat 53 q) hy
  unfold toFloat32
  generalize roundRat 53 q = y at *
  generalize roundRat 24 y = z at *
  rw [abs_le] at *
  obtain ⟨a1, a2⟩ := h53
  obtain ⟨b1, b2⟩ := h24
  have e1 : q / 2 ^ 53 = q * (1 / 2 ^ 53) := by ring
  have e2 : y / 2 ^ 24 = y * (1 / 2 ^ 24) := by ring
  have e3 : q / 2 ^ 23 = q * (1 / 2 ^ 23) := by ring
  rw [e1] at a1 a2
  rw [e2] at b1 b2
  rw [e3]
  constructor <;> norm_num at * <;> nlinarith

/-- Rounding is odd: the nearest value to `-q` is the opposite of the nearest value to `q`. -/
theorem roundRat_neg (p : Nat) (q : ℚ) : roundRat p (-q) = -roundRat p q := by
  unfold roundRat
  rw [Rat.neg_num, Rat.neg_den, Int.natAbs_neg]
  rcases lt_trichotomy q.num 0 with h | h | h
  · have h1 : q.num ≠ 0 := ne_of_lt h
    have h2 : ¬ (0 < q.num) := not_lt.mpr (le_of_lt h)
    have h3 : -q.num ≠ 0 := by omega
    have h4 : 0 < -q.num := by omega
    simp [h1, h2, h3, h4]
  · simp [h]
  · have h1 : q.num ≠ 0 := ne_of_gt h
    have h3 : -q.num ≠ 0 := by omega
    have h4 : ¬ (0 < -q.num) := by omega
    simp [h1, h, h3, h4]

theorem toFloat32_neg (q : ℚ) : toFloat32 (-q) = -toFloat32 q := by
  unfold toFloat32
  rw [roundRat_neg, roundRat_neg]

theorem toFloat32_zero : toFloat32 0 = 0 := by
  decide!

theorem toFloat32_one : toFloat32 1 = 1 := by
  decide!

theorem composition_none : COMPOSITION_.get "none" = some [0, 0, 0, 0, 1, 0, 0, 0, 0] := by
  decide!

theorem composition_box :
    COMPOSITION_.get "box" = some (List.replicate 9 (14913081 / 134217728)) := by
  decide!

theorem composition_gaussian :
    COMPOSITION_.get "gaussian" =
      some [1 / 16, 2 / 16, 1 / 16, 2 / 16, 4 / 16, 2 / 16, 1 / 16, 2 / 16, 1 / 16] := by
  decide!

theorem composition_emboss : COMPOSITION_.get "emboss" = some [2, -1, 0, 0, -1, 0, 0, 0, -1] := by
  decide!

theorem composition_sharpness :
    COMPOSITION_.get "sharpness" = some [-1, -1, -1, -1, 9, -1, -1, -1, -1] := by
  decide!

theorem composition_laplacian :
    COMPOSITION_.get "laplacian" = some [0, 1, 0, 1, -4, 1, 0, 1, 0] := by
  decide!

theorem color_none :
    COLOR_.get "none" = some [1, 0, 0, 0, 0, 1, 0, 0, 0, 0, 1, 0, 0, 0, 0, 1] := by
  decide!

theorem color_bgra :
    COLOR_.get "bgra" = some [0, 0, 1, 0, 0, 1, 0, 0, 1, 0, 0, 0, 0, 0, 0, 1] := by
  decide!

theorem color_sepia :
    COLOR_.get "sepia" =
      some [9395241 / 67108864, 16106127 / 134217728, 5368709 / 67108864, 0,
        7549747 / 16777216, 3271557 / 8388608, 9395241 / 33554432, 0,
        13421773 / 268435456, 5368709 / 134217728, 16106127 / 536870912, 0,
        0, 0, 0, 1] := by
  decide!

theorem color_monochrome :
    COLOR_.get "monochrome" =
      some [10032775 / 33554432, 10032775 / 33554432, 10032775 / 33554432, 0,
        4924113 / 8388608, 4924113 / 8388608, 4924113 / 8388608, 0,
        15300821 / 134217728, 15300821 / 134217728, 15300821 / 134217728, 0,
        0, 0, 0, 1] := by
  decide!

/-- A property access on a key of the literal gives the array stored under the key. -/
theorem index_of_get (table : Table) (name : String) (elements : Float32Array)
    (h : table.get name = some elements) :
    table.index name = Value.float32Array elements := by
  simp [Table.index, h]

/-- Every key of a literal has an own property. -/
theorem get_of_mem_keys (table : Table) (name : String) (h : name ∈ table.keys) :
    ∃ elements, table.get name = some elements := by
  induction table with
  | nil => simp [Table.keys] at h
  | cons entry rest ih =>
    obtain ⟨key, value⟩ := entry
    by_cases hkey : name = key
    · exact ⟨value, by simp [Table.get, List.lookup, hkey]⟩
    · have hrest : name ∈ Table.keys rest := by
        simp only [Table.keys, List.map_cons, List.mem_cons] at h ⊢
        rcases h with h | h
        · exact absurd h hkey
        · exact h
      obtain ⟨elements, helements⟩ := ih hrest
      refine ⟨elements, ?_⟩
      have hne : (name == key) = false := by simpa using hkey
      simpa [Table.get, List.lookup, hne] using helements

/-- A property access on a key of the literal gives an array. -/
theorem index_of_mem_keys (table : Table) (name : String) (h : name ∈ table.keys) :
    ∃ elements, table.index name = Value.float32Array elements := by
  obtain ⟨elements, helements⟩ := get_of_mem_keys table name h
  exact ⟨elements, index_of_get table name elements helements⟩

/-- Every kernel of `COMPOSITION_` has nine weights. -/
theorem composition_length (name : String) (k : Float32Array)
    (hk : COMPOSITION_.get name = some k) : k.length = 9 := by
  simp only [COMPOSITION_, Table.get, List.lookup] at hk
  repeat' split at hk
  all_goals first
    | (injection hk with hk; subst hk; rfl)
    | cases hk

/-- When the nine samples all are the colour `c`, the loop of the shader, computed without
rounding, yields `c` times the sum of the nine weights, for every kernel of nine weights. -/
theorem convolve_uniform (u : Uniforms) (c : Vec4) (uvPoint : Vec2)
    (hlen : u.kernel.length = 9)
    (hsamples : ∀ i < 9, u.image (uvPoint.add (elem2 u.offset i)) = c) :
    convolve u uvPoint = Vec4.scale u.kernel.sum c := by
  have h0 := hsamples 0 (by decide)
  have h1 := hsamples 1 (by decide)
  have h2 := hsamples 2 (by decide)
  have h3 := hsamples 3 (by decide)
  have h4 := hsamples 4 (by decide)
  have h5 := hsamples 5 (by decide)
  have h6 := hsamples 6 (by decide)
  have h7 := hsamples 7 (by decide)
  have h8 := hsamples 8 (by decide)
  obtain ⟨image, offset, kernel, color⟩ := u
  simp only at hlen h0 h1 h2 h3 h4 h5 h6 h7 h8
  match kernel, hlen with
  | [k0, k1, k2, k3, k4, k5, k6, k7, k8], _ =>
    simp only [convolve, range_nine, List.foldl, h0, h1, h2, h3, h4, h5, h6, h7, h8, elem,
      Vec4.add, Vec4.scale, List.getD_cons_zero, List.getD_cons_succ, List.sum_cons,
      List.sum_nil, Vec4.mk.injEq]
    refine ⟨?_, ?_, ?_, ?_⟩ <;> ring

/-- With the identity for rounding the loop of the GPU is the loop without rounding. -/
theorem convolveFl_id (u : Uniforms) (uvPoint : Vec2) :
    convolveFl id u uvPoint = convolve u uvPoint := by
  simp [convolveFl, convolve, Vec4.map, Vec2.map]

/-- With the identity for rounding the product of the GPU is the product without rounding. -/
theorem mat4MulVec4Fl_id (m : Float32Array) (v : Vec4) :
    mat4MulVec4Fl id m v = mat4MulVec4 m v := by
  simp [mat4MulVec4Fl, mat4MulVec4]

/-- The kernel `none` in the arithmetic of any GPU: when rounding keeps 0, 1 and the
components of the colour `c` of the frame, the loop yields `c`. -/
theorem convolveFl_none (fl : ℚ → ℚ) (u : Uniforms) (c : Vec4) (uvPoint : Vec2)
    (hkernel : u.kernel = [0, 0, 0, 0, 1, 0, 0, 0, 0]) (himage : Uniform u.image c)
    (hzero : fl 0 = 0) (hone : fl 1 = 1) (hc : c.map fl = c) :
    convolveFl fl u uvPoint = c := by
  obtain ⟨x, y, z, w⟩ := c
  simp only [Vec4.map, Vec4.mk.injEq] at hc
  obtain ⟨hx, hy, hz, hw⟩ := hc
  simp [convolveFl, range_nine, List.foldl, hkernel, himage _, elem, Vec4.scale, Vec4.add,
    Vec4.map, hzero, hone, hx, hy, hz, hw]

/-! ## The filter tables -/

theorem toFloat32_ninth : toFloat32 (1 / 9) = 14913081 / 134217728 := by
  decide!

/-- C1, counterexample: the nine weights the lookup of `box` returns all differ from
1/9. -/
theorem catalog_box_not_ninth :
    ∃ k, COMPOSITION_.index "box" = Value.float32Array k ∧ ∀ i < 9, elem k i ≠ 1 / 9 := by
  refine ⟨_, index_of_get _ _ _ composition_box, ?_⟩
  intro i hi
  interval_cases i <;> norm_num [elem, List.replicate]

/-- C1, amended: the keys of `COMPOSITION_` and of `COLOR_` are the preset names; every
convolution name gives a kernel of 9 elements and every colour name a matrix of 16
elements; `none` has weight 1 at the centre (index 4) and 0 elsewhere; `box` has at every
place the binary32 value nearest to 1/9, which is 14913081 / 2^27 and exceeds 1/9 by
1 / (9 * 2^27); `gaussian` has 1/16 at the corners, 2/16 at the edges and 4/16 at the
centre; `sharpness` has 9 at the centre and -1 elsewhere. -/
theorem catalog_values :
    COMPOSITION_.keys = compositionNames ∧ COLOR_.keys = colorNames ∧
    (∀ name ∈ compositionNames,
      ∃ k, COMPOSITION_.index name = Value.float32Array k ∧ k.length = 9) ∧
    (∀ name ∈ colorNames, ∃ m, COLOR_.index name = Value.float32Array m ∧ m.length = 16) ∧
    (∃ k, COMPOSITION_.index "none" = Value.float32Array k ∧
      ∀ i < 9, elem k i = if i = 4 then 1 else 0) ∧
    (∃ k, COMPOSITION_.index "box" = Value.float32Array k ∧
      ∀ i < 9, elem k i = toFloat32 (1 / 9) ∧ elem k i = 14913081 / 134217728 ∧
        elem k i - 1 / 9 = 1 / (9 * 2 ^ 27)) ∧
    (∃ k, COMPOSITION_.index "gaussian" = Value.float32Array k ∧
      (∀ i ∈ [0, 2, 6, 8], elem k i = 1 / 16) ∧
      (∀ i ∈ [1, 3, 5, 7], elem k i = 2 / 16) ∧ elem k 4 = 4 / 16) ∧
    (∃ k, COMPOSITION_.index "sharpness" = Value.float32Array k ∧
      ∀ i < 9, elem k i = if i = 4 then 9 else -1) := by
  refine ⟨by decide, by decide, ?_, ?_, ?_, ?_, ?_, ?_⟩
  · intro name hname
    simp only [compositionNames, List.mem_cons, List.mem_singleton, List.not_mem_nil,
      or_false] at hname
    rcases hname with h | h | h | h | h | h <;> subst h
    · exact ⟨_, index_of_get _ _ _ composition_none, rfl⟩
    · exact ⟨_, index_of_get _ _ _ composition_box, rfl⟩
    · exact ⟨_, index_of_get _ _ _ composition_gaussian, rfl⟩
    · exact ⟨_, index_of_get _ _ _ composition_emboss, rfl⟩
    · exact ⟨_, index_of_get _ _ _ composition_sharpness, rfl⟩
    · exact ⟨_, index_of_get _ _ _ composition_laplacian, rfl⟩
  · intro name hname
    simp only [colorNames, List.mem_cons, List.mem_singleton, List.not_mem_nil,
      or_false] at hname
    rcases hname with h | h | h | h <;> subst h
    · exact ⟨_, index_of_get _ _ _ color_none, rfl⟩
    · exact ⟨_, index_of_get _ _ _ color_bgra, rfl⟩
    · exact ⟨_, index_of_get _ _ _ color_sepia, rfl⟩
    · exact ⟨_, index_of_get _ _ _ color_monochrome, rfl⟩
  · refine ⟨_, index_of_get _ _ _ composition_none, ?_⟩
    intro i hi
    interval_cases i <;> simp [elem]
  · refine ⟨_, index_of_get _ _ _ composition_box, ?_⟩
    intro i hi
    rw [toFloat32_ninth]
    interval_cases i <;> norm_num [elem, List.replicate]
  · refine ⟨_, index_of_get _ _ _ composition_gaussian, ?_, ?_, ?_⟩
    · intro i hi
      simp only [List.mem_cons, List.mem_singleton, List.not_mem_nil, or_false] at hi
      rcases hi with h | h | h | h <;> subst h <;> simp [elem]
    · intro i hi
      simp only [List.mem_cons, List.mem_singleton, List.not_mem_nil, or_false] at hi
      rcases hi with h | h | h | h <;> subst h <;> simp [elem]
    · simp [elem]
  · refine ⟨_, index_of_get _ _ _ composition_sharpness, ?_⟩
    intro i hi
    interval_cases i <;> simp [elem]

/-! ## The fragment shader -/

/-- C2, counterexample: a frame of the one colour `grey` (byte value 85) filtered with the
kernel `box` as its array stores it.  A GPU computing in binary32 yields a colour one unit
in the last place above `grey`: it is neither `grey` times the sum of the nine weights
(which is 1 + 2^-27) nor `grey` itself.  A GPU computing in binary16 yields 1025/1024 for
a white frame. -/
theorem convolve_box_rounded :
    COMPOSITION_.get "box" = some (boxFrame grey).kernel ∧
    (∀ i < 9, (boxFrame grey).image
      ((⟨1 / 2, 1 / 2⟩ : Vec2).add (elem2 (boxFrame grey).offset i)) = grey) ∧
    grey.map binary32 = grey ∧
    convolveFl binary32 (boxFrame grey) ⟨1 / 2, 1 / 2⟩ =
      ⟨2796203 / 8388608, 2796203 / 8388608, 2796203 / 8388608, 1⟩ ∧
    convolveFl binary32 (boxFrame grey) ⟨1 / 2, 1 / 2⟩ ≠
      Vec4.scale (boxFrame grey).kernel.sum grey ∧
    convolveFl binary32 (boxFrame grey) ⟨1 / 2, 1 / 2⟩ ≠ grey ∧
    convolveFl binary16 (boxFrame ⟨1, 1, 1, 1⟩) ⟨1 / 2, 1 / 2⟩ ≠
      Vec4.scale (boxFrame ⟨1, 1, 1, 1⟩).kernel.sum ⟨1, 1, 1, 1⟩ := by
  refine ⟨by decide!, fun _ _ => rfl, by decide!, by decide!, by decide!, by decide!,
    by decide!⟩

/-- C2, amended: when each of the nine samples the fragment shader reads is the colour
`c`, and the kernel of any preset of `COMPOSITION_` is bound to `kernel`, the sum of the
loop of the shader computed without rounding is `c` times the sum of the nine stored
weights.  For `none` the sum of the weights is 1 and the result is `c`, without rounding
and in the arithmetic of any GPU whose rounding keeps 0, 1 and the components of `c`. -/
theorem convolve_uniform_preset (u : Uniforms) (c : Vec4) (uvPoint : Vec2) (name : String)
    (hkernel : COMPOSITION_.get name = some u.kernel)
    (hsamples : ∀ i < 9, u.image (uvPoint.add (elem2 u.offset i)) = c) :
    convolve u uvPoint = Vec4.scale u.kernel.sum c ∧
    (name = "none" → u.kernel.sum = 1 ∧ convolve u uvPoint = c ∧
      ∀ fl : ℚ → ℚ, fl 0 = 0 → fl 1 = 1 → c.map fl = c → Uniform u.image c →
        convolveFl fl u uvPoint = c) := by
  have hsum := convolve_uniform u c uvPoint (composition_length name _ hkernel) hsamples
  refine ⟨hsum, ?_⟩
  intro hname
  subst hname
  have hk : u.kernel = [0, 0, 0, 0, 1, 0, 0, 0, 0] := by
    rw [composition_none] at hkernel
    exact (Option.some.inj hkernel).symm
  have h1 : u.kernel.sum = 1 := by
    rw [hk]; norm_num
  refine ⟨h1, ?_, ?_⟩
  · rw [hsum, h1]
    simp [Vec4.scale]
  · intro fl hzero hone hc himage
    exact convolveFl_none fl u c uvPoint hk himage hzero hone hc

/-- A solid red frame filtered with `none`: the loop yields red, without rounding and in
binary32. -/
theorem convolve_uniform_preset_witness :
    convolve redFrame ⟨1 / 2, 1 / 2⟩ = Vec4.scale redFrame.kernel.sum ⟨255, 0, 0, 255⟩ ∧
    redFrame.kernel.sum = 1 ∧
    convolve redFrame ⟨1 / 2, 1 / 2⟩ = ⟨255, 0, 0, 255⟩ ∧
    convolveFl binary32 redFrame ⟨1 / 2, 1 / 2⟩ = ⟨255, 0, 0, 255⟩ :=
  ⟨(convolve_uniform_preset redFrame ⟨255, 0, 0, 255⟩ ⟨1 / 2, 1 / 2⟩ "none"
      composition_none (fun _ _ => rfl)).1,
   ((convolve_uniform_preset redFrame ⟨255, 0, 0, 255⟩ ⟨1 / 2, 1 / 2⟩ "none"
      composition_none (fun _ _ => rfl)).2 rfl).1,
   ((convolve_uniform_preset redFrame ⟨255, 0, 0, 255⟩ ⟨1 / 2, 1 / 2⟩ "none"
      composition_none (fun _ _ => rfl)).2 rfl).2.1,
   ((convolve_uniform_preset redFrame ⟨255, 0, 0, 255⟩ ⟨1 / 2, 1 / 2⟩ "none"
      composition_none (fun _ _ => rfl)).2 rfl).2.2 binary32 (by decide!) (by decide!)
      (by decide!) (fun _ => rfl)⟩

/-- C3: with the kernel `none` and the colour matrix `bgra`, on a frame of one colour
(r, g, b, a) the fragment shader writes (b, g, r, a). -/
theorem fragment_none_bgra (u : Uniforms) (r g b a : ℚ) (uvPoint : Vec2)
    (hkernel : COMPOSITION_.get "none" = some u.kernel)
    (hcolor : COLOR_.get "bgra" = some u.color)
    (himage : Uniform u.image ⟨r, g, b, a⟩) :
    fragmentMain u uvPoint = ⟨b, g, r, a⟩ := by
  have hsum := convolve_uniform u _ uvPoint (composition_length _ _ hkernel)
    (fun i _ => himage (uvPoint.add (elem2 u.offset i)))
  have hk : u.kernel = [0, 0, 0, 0, 1, 0, 0, 0, 0] := by
    rw [composition_none] at hkernel
    exact (Option.some.inj hkernel).symm
  have hc : u.color = [0, 0, 1, 0, 0, 1, 0, 0, 1, 0, 0, 0, 0, 0, 0, 1] := by
    rw [color_bgra] at hcolor
    exact (Option.some.inj hcolor).symm
  rw [fragmentMain, hsum, hk, hc]
  simp [mat4MulVec4, elem, Vec4.scale]

/-- A solid red frame (255, 0, 0, 255) drawn with `none` and `bgra` comes out solid blue
(0, 0, 255, 255). -/
theorem fragment_none_bgra_witness :
    fragmentMain ⟨fun _ => ⟨255, 0, 0, 255⟩, vec2Array ((sampleOffsets 2 2).getD []),
      [0, 0, 0, 0, 1, 0, 0, 0, 0], [0, 0, 1, 0, 0, 1, 0, 0, 1, 0, 0, 0, 0, 0, 0, 1]⟩
      ⟨1 / 4, 3 / 4⟩ = ⟨0, 0, 255, 255⟩ :=
  fragment_none_bgra _ 255 0 0 255 ⟨1 / 4, 3 / 4⟩
    composition_none color_bgra (fun _ => rfl)

/-- The same in the arithmetic of any GPU whose rounding keeps 0, 1 and the components of
the colour: `none` and `bgra` turn (r, g, b, a) into (b, g, r, a). -/
theorem fragment_none_bgra_rounded (fl : ℚ → ℚ) (u : Uniforms) (r g b a : ℚ) (uvPoint : Vec2)
    (hkernel : COMPOSITION_.get "none" = some u.kernel)
    (hcolor : COLOR_.get "bgra" = some u.color)
    (himage : Uniform u.image ⟨r, g, b, a⟩)
    (hzero : fl 0 = 0) (hone : fl 1 = 1) (hc : (⟨r, g, b, a⟩ : Vec4).map fl = ⟨r, g, b, a⟩) :
    fragmentMainFl fl u uvPoint = ⟨b, g, r, a⟩ := by
  have hk : u.kernel = [0, 0, 0, 0, 1, 0, 0, 0, 0] := by
    rw [composition_none] at hkernel
    exact (Option.some.inj hkernel).symm
  have hm : u.color = [0, 0, 1, 0, 0, 1, 0, 0, 1, 0, 0, 0, 0, 0, 0, 1] := by
    rw [color_bgra] at hcolor
    exact (Option.some.inj hcolor).symm
  rw [fragmentMainFl, convolveFl_none fl u _ uvPoint hk himage hzero hone hc, hm]
  simp only [Vec4.map, Vec4.mk.injEq] at hc
  obtain ⟨hr, hg, hb, ha⟩ := hc
  simp [mat4MulVec4Fl, elem, hzero, hone, hr, hg, hb, ha]

/-- C4, counterexample: applied to solid red (1, 0, 0, 1) the matrix `monochrome` does not
give the luminance 0.299 of the decimal weights, neither without rounding nor in
binary32: it gives 10032775 / 2^25. -/
theorem monochrome_red_not_decimal :
    (COLOR_.get "monochrome").map (fun m => mat4MulVec4 m ⟨1, 0, 0, 1⟩) ≠
      some ⟨0.299 * 1 + 0.587 * 0 + 0.114 * 0, 0.299 * 1 + 0.587 * 0 + 0.114 * 0,
        0.299 * 1 + 0.587 * 0 + 0.114 * 0, 1⟩ ∧
    (COLOR_.get "monochrome").map (fun m => mat4MulVec4Fl binary32 m ⟨1, 0, 0, 1⟩) ≠
      some ⟨0.299 * 1 + 0.587 * 0 + 0.114 * 0, 0.299 * 1 + 0.587 * 0 + 0.114 * 0,
        0.299 * 1 + 0.587 * 0 + 0.114 * 0, 1⟩ ∧
    (COLOR_.get "monochrome").map (fun m => mat4MulVec4 m ⟨1, 0, 0, 1⟩) =
      some ⟨10032775 / 33554432, 10032775 / 33554432, 10032775 / 33554432, 1⟩ := by
  refine ⟨by decide!, by decide!, by decide!⟩

theorem toFloat32_weights :
    toFloat32 0.299 = 10032775 / 33554432 ∧ toFloat32 0.587 = 4924113 / 8388608 ∧
    toFloat32 0.114 = 15300821 / 134217728 := by
  refine ⟨by decide!, by decide!, by decide!⟩

/-- C4, amended: the matrix `monochrome`, read by columns as `uniformMatrix4fv` with
`transpose` false uploads it, maps (r, g, b, a) to (L, L, L, a) with
L = w1 r + w2 g + w3 b, where w1, w2, w3 are the binary32 values nearest to 0.299, 0.587
and 0.114; each is within 2^-26 of its decimal, so that for components between 0 and 1
L is within 3 / 2^26 of 0.299 r + 0.587 g + 0.114 b.  In the arithmetic of any GPU whose
rounding keeps 0, 1 and `a`, the three colour channels still get one and the same value and
alpha is kept. -/
theorem monochrome_luminance (r g b a : ℚ) :
    (COLOR_.get "monochrome").map (fun m => mat4MulVec4 m ⟨r, g, b, a⟩) =
      some ⟨toFloat32 0.299 * r + toFloat32 0.587 * g + toFloat32 0.114 * b,
        toFloat32 0.299 * r + toFloat32 0.587 * g + toFloat32 0.114 * b,
        toFloat32 0.299 * r + toFloat32 0.587 * g + toFloat32 0.114 * b, a⟩ ∧
    |toFloat32 0.299 - 0.299| ≤ 1 / 2 ^ 26 ∧ |toFloat32 0.587 - 0.587| ≤ 1 / 2 ^ 26 ∧
    |toFloat32 0.114 - 0.114| ≤ 1 / 2 ^ 26 ∧
    (0 ≤ r ∧ r ≤ 1 ∧ 0 ≤ g ∧ g ≤ 1 ∧ 0 ≤ b ∧ b ≤ 1 →
      |(toFloat32 0.299 * r + toFloat32 0.587 * g + toFloat32 0.114 * b) -
        (0.299 * r + 0.587 * g + 0.114 * b)| ≤ 3 / 2 ^ 26) ∧
    (∀ fl : ℚ → ℚ, fl 0 = 0 → fl 1 = 1 → fl a = a →
      ∃ l, (COLOR_.get "monochrome").map (fun m => mat4MulVec4Fl fl m ⟨r, g, b, a⟩) =
        some ⟨l, l, l, a⟩) := by
  obtain ⟨h1, h2, h3⟩ := toFloat32_weights
  rw [color_monochrome, h1, h2, h3]
  refine ⟨?_, ?_, ?_, ?_, ?_, ?_⟩
  · simp [mat4MulVec4, elem]
  · norm_num [abs_le]
  · norm_num [abs_le]
  · norm_num [abs_le]
  · rintro ⟨hr0, hr1, hg0, hg1, hb0, hb1⟩
    rw [abs_le]
    constructor <;> norm_num <;> linarith
  · intro fl hzero hone ha
    refine ⟨(mat4MulVec4Fl fl
      [10032775 / 33554432, 10032775 / 33554432, 10032775 / 33554432, 0,
        4924113 / 8388608, 4924113 / 8388608, 4924113 / 8388608, 0,
        15300821 / 134217728, 15300821 / 134217728, 15300821 / 134217728, 0,
        0, 0, 0, 1] ⟨r, g, b, a⟩).x, ?_⟩
    simp [mat4MulVec4Fl, elem, hzero, hone, ha]

/-- For solid red the luminance is 10032775 / 2^25 in binary32 as well. -/
theorem monochrome_luminance_witness :
    (COLOR_.get "monochrome").map (fun m => mat4MulVec4 m ⟨1, 0, 0, 1⟩) =
      some ⟨toFloat32 0.299 * 1 + toFloat32 0.587 * 0 + toFloat32 0.114 * 0,
        toFloat32 0.299 * 1 + toFloat32 0.587 * 0 + toFloat32 0.114 * 0,
        toFloat32 0.299 * 1 + toFloat32 0.587 * 0 + toFloat32 0.114 * 0, 1⟩ ∧
    |(toFloat32 0.299 * 1 + toFloat32 0.587 * 0 + toFloat32 0.114 * 0) -
      ((0.299 : ℚ) * 1 + 0.587 * 0 + 0.114 * 0)| ≤ 3 / 2 ^ 26 ∧
    (∃ l, (COLOR_.get "monochrome").map (fun m => mat4MulVec4Fl binary32 m ⟨1, 0, 0, 1⟩) =
      some ⟨l, l, l, 1⟩) :=
  ⟨(monochrome_luminance 1 0 0 1).1,
   (monochrome_luminance 1 0 0 1).2.2.2.2.1 (by norm_num),
   (monochrome_luminance 1 0 0 1).2.2.2.2.2 binary32 (by decide!) (by decide!) (by decide!)⟩

/-- C5: the matrix `none` of `COLOR_` maps every vector to itself. -/
theorem color_none_identity (v : Vec4) :
    (COLOR_.get "none").map (fun m => mat4MulVec4 m v) = some v := by
  rw [color_none]
  simp [mat4MulVec4, elem]

/-- The same in the arithmetic of any GPU whose rounding keeps 0, 1 and the components of
the vector: the matrix `none` maps the vector to itself. -/
theorem color_none_identity_rounded (fl : ℚ → ℚ) (v : Vec4)
    (hzero : fl 0 = 0) (hone : fl 1 = 1) (hv : v.map fl = v) :
    (COLOR_.get "none").map (fun m => mat4MulVec4Fl fl m v) = some v := by
  obtain ⟨x, y, z, w⟩ := v
  simp only [Vec4.map, Vec4.mk.injEq] at hv
  obtain ⟨hx, hy, hz, hw⟩ := hv
  rw [color_none]
  simp [mat4MulVec4Fl, elem, hzero, hone, hx, hy, hz, hw]

/-- The binary32 values kept for the weights of `box`: each is 14913081 / 2^27. -/
theorem stored_box :
    stored [1 / 9, 1 / 9, 1 / 9, 1 / 9, 1 / 9, 1 / 9, 1 / 9, 1 / 9, 1 / 9] =
      List.replicate 9 (14913081 / 134217728) := by
  decide!

/-- The weights of `gaussian` are binary32 values: they are kept as written. -/
theorem stored_gaussian :
    stored [1 / 16, 2 / 16, 1 / 16, 2 / 16, 4 / 16, 2 / 16, 1 / 16, 2 / 16, 1 / 16] =
      [1 / 16, 2 / 16, 1 / 16, 2 / 16, 4 / 16, 2 / 16, 1 / 16, 2 / 16, 1 / 16] := by
  decide!

/-- C6: the nine weights of `box` sum to 1 and the nine weights of `gaussian` sum to 1,
exactly, as the rationals the source writes; the binary32 values the two arrays keep for
them, which are what the lookup returns, sum to 1 within 1e-6 (for `gaussian` exactly). -/
theorem blur_kernels_sum_one :
    ∃ box gaussian,
      box = [1 / 9, 1 / 9, 1 / 9, 1 / 9, 1 / 9, 1 / 9, 1 / 9, 1 / 9, 1 / 9] ∧
      gaussian = [1 / 16, 2 / 16, 1 / 16, 2 / 16, 4 / 16, 2 / 16, 1 / 16, 2 / 16, 1 / 16] ∧
      COMPOSITION_.get "box" = some (stored box) ∧
      COMPOSITION_.get "gaussian" = some (stored gaussian) ∧
      box.sum = 1 ∧ gaussian.sum = 1 ∧
      |(stored box).sum - 1| ≤ 1 / 1000000 ∧ |(stored gaussian).sum - 1| ≤ 1 / 1000000 := by
  refine ⟨_, _, rfl, rfl, ?_, ?_, by norm_num, by norm_num, ?_, ?_⟩
  · rw [stored_box]
    exact composition_box
  · rw [stored_gaussian]
    exact composition_gaussian
  · rw [stored_box]
    norm_num [List.replicate, abs_le]
  · rw [stored_gaussian]
    norm_num

/-- The array computed from a width `w > 0` and a height `h > 0` fills `offset[0..8]` with
(-sw,-sh), (0,-sh), (sw,-sh), (-sw,0), (0,0), (sw,0), (-sw,sh), (0,sh), (sw,sh), where `sw`
and `sh` are the binary32 values kept for 1/w and 1/h; each is within its 2^23-th part of
the exact quotient. -/
theorem sample_offsets_values (w h : Nat) (hw : 0 < w) (hh : 0 < h) :
    (sampleOffsets w h).map vec2Array =
      some
        [ ⟨-toFloat32 (1 / (w : ℚ)), -toFloat32 (1 / (h : ℚ))⟩,
          ⟨0, -toFloat32 (1 / (h : ℚ))⟩,
          ⟨toFloat32 (1 / (w : ℚ)), -toFloat32 (1 / (h : ℚ))⟩,
          ⟨-toFloat32 (1 / (w : ℚ)), 0⟩, ⟨0, 0⟩, ⟨toFloat32 (1 / (w : ℚ)), 0⟩,
          ⟨-toFloat32 (1 / (w : ℚ)), toFloat32 (1 / (h : ℚ))⟩,
          ⟨0, toFloat32 (1 / (h : ℚ))⟩,
          ⟨toFloat32 (1 / (w : ℚ)), toFloat32 (1 / (h : ℚ))⟩ ] ∧
    |toFloat32 (1 / (w : ℚ)) - 1 / (w : ℚ)| ≤ 1 / (w : ℚ) / 2 ^ 23 ∧
    |toFloat32 (1 / (h : ℚ)) - 1 / (h : ℚ)| ≤ 1 / (h : ℚ) / 2 ^ 23 := by
  have hwq : (0 : ℚ) < 1 / (w : ℚ) := by
    have : (0 : ℚ) < w := by exact_mod_cast hw
    positivity
  have hhq : (0 : ℚ) < 1 / (h : ℚ) := by
    have : (0 : ℚ) < h := by exact_mod_cast hh
    positivity
  refine ⟨?_, toFloat32_error _ hwq, toFloat32_error _ hhq⟩
  simp only [sampleOffsets, step, hw.ne', hh.ne', if_false, stored, List.map, Option.map_some',
    vec2Array, toFloat32_neg, toFloat32_zero]

/-! ## Pipeline setup -/

theorem setup_missing_context (s : State) (stream : MediaStream)
    (hcontext : s.self.context_ = none) :
    handleCaptureSuccess_ (some stream) s =
      (Completion.throw "This browser does not support the WebGL API.",
       { s with
         self := { s.self with video_ := { s.self.video_ with src := some stream.url } },
         calls := s.calls ++ [Call.createObjectURL stream] }) := by
  simp [handleCaptureSuccess_, bind, Js.bind, getThis, setThis, createObjectURL, call, raise,
    pure, hcontext]

theorem setup_vertex_failure (s : State) (stream : MediaStream)
    (context : WebGLRenderingContext) (hcontext : s.self.context_ = some context)
    (hvertex : context.compileStatus GLenum.VERTEX_SHADER = false) :
    handleCaptureSuccess_ (some stream) s =
      (Completion.throw ("ERROR: " ++ context.shaderInfoLog GLenum.VERTEX_SHADER),
       { s with
         self := { s.self with video_ := { s.self.video_ with src := some stream.url } },
         calls := s.calls ++
           [ Call.createObjectURL stream,
             Call.createShader GLenum.VERTEX_SHADER,
             Call.shaderSource ⟨s.objects, GLenum.VERTEX_SHADER⟩ VERTEX,
             Call.compileShader ⟨s.objects, GLenum.VERTEX_SHADER⟩,
             Call.getShaderParameter ⟨s.objects, GLenum.VERTEX_SHADER⟩ GLenum.COMPILE_STATUS,
             Call.getShaderInfoLog ⟨s.objects, GLenum.VERTEX_SHADER⟩ ],
         objects := s.objects + 1 }) := by
  simp [handleCaptureSuccess_, bind, Js.bind, getThis, setThis, createObjectURL, call, raise,
    pure, hcontext, createShader, create, getShaderParameter, getShaderInfoLog, hvertex]

theorem setup_fragment_failure (s : State) (stream : MediaStream)
    (context : WebGLRenderingContext) (hcontext : s.self.context_ = some context)
    (hvertex : context.compileStatus GLenum.VERTEX_SHADER = true)
    (hfragment : context.compileStatus GLenum.FRAGMENT_SHADER = false) :
    handleCaptureSuccess_ (some stream) s =
      (Completion.throw ("ERROR: " ++ context.shaderInfoLog GLenum.FRAGMENT_SHADER),
       { s with
         self := { s.self with video_ := { s.self.video_ with src := some stream.url } },
         calls := s.calls ++
           [ Call.createObjectURL stream,
             Call.createShader GLenum.VERTEX_SHADER,
             Call.shaderSource ⟨s.objects, GLenum.VERTEX_SHADER⟩ VERTEX,
             Call.compileShader ⟨s.objects, GLenum.VERTEX_SHADER⟩,
             Call.getShaderParameter ⟨s.objects, GLenum.VERTEX_SHADER⟩ GLenum.COMPILE_STATUS,
             Call.createShader GLenum.FRAGMENT_SHADER,
             Call.shaderSource ⟨s.objects + 1, GLenum.FRAGMENT_SHADER⟩ FRAGMENT,
             Call.compileShader ⟨s.objects + 1, GLenum.FRAGMENT_SHADER⟩,
             Call.getShaderParameter ⟨s.objects + 1, GLenum.FRAGMENT_SHADER⟩
               GLenum.COMPILE_STATUS,
             Call.getShaderInfoLog ⟨s.objects + 1, GLenum.FRAGMENT_SHADER⟩ ],
         objects := s.objects + 1 + 1 }) := by
  simp [handleCaptureSuccess_, bind, Js.bind, getThis, setThis, createObjectURL, call, raise,
    pure, hcontext, createShader, create, getShaderParameter, getShaderInfoLog, hvertex,
    hfragment]

/-- When both shaders compile and both selections name an array, `handleCaptureSuccess_`
runs to its end, whatever the link status of the program: these are the calls it makes and
the state it leaves. -/
theorem setup_success (s : State) (stream : MediaStream)
    (context : WebGLRenderingContext) (kernel matrix : Float32Array)
    (hcontext : s.self.context_ = some context)
    (hvertex : context.compileStatus GLenum.VERTEX_SHADER = true)
    (hfragment : context.compileStatus GLenum.FRAGMENT_SHADER = true)
    (hkernel : COMPOSITION_.index s.self.compositeFilter_.value = Value.float32Array kernel)
    (hmatrix : COLOR_.index s.self.colorFilter_.value = Value.float32Array matrix) :
    handleCaptureSuccess_ (some stream) s =
      (Completion.normal (),
       { self :=
           { s.self with
             video_ := { s.self.video_ with src := some stream.url },
             kernel_ := if context.linkStatus then context.uniformLocation "kernel" else none,
             color_ := if context.linkStatus then context.uniformLocation "color" else none },
         calls := s.calls ++
           [ Call.createObjectURL stream,
             Call.createShader GLenum.VERTEX_SHADER,
             Call.shaderSource ⟨s.objects, GLenum.VERTEX_SHADER⟩ VERTEX,
             Call.compileShader ⟨s.objects, GLenum.VERTEX_SHADER⟩,
             Call.getShaderParameter ⟨s.objects, GLenum.VERTEX_SHADER⟩ GLenum.COMPILE_STATUS,
             Call.createShader GLenum.FRAGMENT_SHADER,
             Call.shaderSource ⟨s.objects + 1, GLenum.FRAGMENT_SHADER⟩ FRAGMENT,
             Call.compileShader ⟨s.objects + 1, GLenum.FRAGMENT_SHADER⟩,
             Call.getShaderParameter ⟨s.objects + 1, GLenum.FRAGMENT_SHADER⟩
               GLenum.COMPILE_STATUS,
             Call.createProgram,
             Call.attachShader (s.objects + 2) ⟨s.objects, GLenum.VERTEX_SHADER⟩,
             Call.attachShader (s.objects + 2) ⟨s.objects + 1, GLenum.FRAGMENT_SHADER⟩,
             Call.linkProgram (s.objects + 2),
             Call.useProgram (s.objects + 2),
             Call.createBuffer,
             Call.bindBuffer GLenum.ARRAY_BUFFER (s.objects + 3),
             Call.bufferData GLenum.ARRAY_BUFFER [0, 0, 1, 0, 0, 1, 1, 1] GLenum.STATIC_DRAW,
             Call.getAttribLocation (s.objects + 2) "position",
             Call.enableVertexAttribArray
               (if context.linkStatus then context.attribLocation "position" else -1),
             Call.vertexAttribPointer
               (if context.linkStatus then context.attribLocation "position" else -1)
               2 GLenum.FLOAT false 0 0,
             Call.createBuffer,
             Call.bindBuffer GLenum.ARRAY_BUFFER (s.objects + 4),
             Call.bufferData GLenum.ARRAY_BUFFER [0, 0, 1, 0, 0, 1, 1, 1] GLenum.STATIC_DRAW,
             Call.getAttribLocation (s.objects + 2) "texture",
             Call.enableVertexAttribArray
               (if context.linkStatus then context.attribLocation "texture" else -1),
             Call.vertexAttribPointer
               (if context.linkStatus then context.attribLocation "texture" else -1)
               2 GLenum.FLOAT false 0 0,
             Call.createTexture,
             Call.bindTexture GLenum.TEXTURE_2D (s.objects + 5),
             Call.texParameteri GLenum.TEXTURE_2D GLenum.TEXTURE_WRAP_S GLenum.CLAMP_TO_EDGE,
             Call.texParameteri GLenum.TEXTURE_2D GLenum.TEXTURE_WRAP_T GLenum.CLAMP_TO_EDGE,
             Call.texParameteri GLenum.TEXTURE_2D GLenum.TEXTURE_MIN_FILTER GLenum.LINEAR,
             Call.texParameteri GLenum.TEXTURE_2D GLenum.TEXTURE_MAG_FILTER GLenum.LINEAR,
             Call.getUniformLocation (s.objects + 2) "offset",
             Call.uniform2fv
               (if context.linkStatus then context.uniformLocation "offset" else none)
               (sampleOffsets s.self.video_.width s.self.video_.height),
             Call.getUniformLocation (s.objects + 2) "kernel",
             Call.uniform1fv
               (if context.linkStatus then context.uniformLocation "kernel" else none)
               (Value.float32Array kernel),
             Call.getUniformLocation (s.objects + 2) "color",
             Call.uniformMatrix4fv
               (if context.linkStatus then context.uniformLocation "color" else none)
               false (Value.float32Array matrix),
             Call.requestAnimationFrame Callback.handleAnimationFrame_ ],
         objects := s.objects + 6,
         pending := s.pending ++ [Callback.handleAnimationFrame_] }) := by
  simp [handleCaptureSuccess_, bind, Js.bind, getThis, setThis, createObjectURL, call, raise,
    pure, hcontext, createShader, create, getShaderParameter, getAttribLocation,
    getUniformLocation, requestAnimationFrame, uniform1fv, uniformMatrix4fv, hvertex,
    hfragment, hkernel, hmatrix]

/-- When both shaders compile, `handleCaptureSuccess_` makes one `uniform2fv` call, whatever
the two selections are: at the location of `offset`, with `sampleOffsets` of the width and
height of the video element. -/
theorem setup_uploads_offsets (s : State) (stream : MediaStream)
    (context : WebGLRenderingContext) (hcontext : s.self.context_ = some context)
    (hvertex : context.compileStatus GLenum.VERTEX_SHADER = true)
    (hfragment : context.compileStatus GLenum.FRAGMENT_SHADER = true) :
    ((handleCaptureSuccess_ (some stream) s).2.calls.drop s.calls.length).filterMap
        Call.offsets? =
      [(if context.linkStatus then context.uniformLocation "offset" else none,
        sampleOffsets s.self.video_.width s.self.video_.height)] := by
  rcases hk : COMPOSITION_.index s.self.compositeFilter_.value with kernel | _ | _ <;>
  rcases hm : COLOR_.index s.self.colorFilter_.value with matrix | _ | _ <;>
  simp [handleCaptureSuccess_, bind, Js.bind, getThis, setThis, createObjectURL, call, raise,
    pure, hcontext, createShader, create, getShaderParameter, getAttribLocation,
    getUniformLocation, requestAnimationFrame, uniform1fv, uniformMatrix4fv, hvertex,
    hfragment, hk, hm, Call.offsets?]

/-! ## The render loop -/

/-- A run of `updateFrame_` when both selections name an array. -/
theorem tick_calls (s : State) (timestamp : Nat) (context : WebGLRenderingContext)
    (kernel matrix : Float32Array)
    (hcontext : s.self.context_ = some context)
    (hkernel : COMPOSITION_.index s.self.compositeFilter_.value = Value.float32Array kernel)
    (hmatrix : COLOR_.index s.self.colorFilter_.value = Value.float32Array matrix) :
    updateFrame_ timestamp s =
      (Completion.normal (),
       { s with
         calls := s.calls ++ tickCalls s.self,
         pending := s.pending ++ [Callback.handleAnimationFrame_] }) := by
  simp [updateFrame_, bind, Js.bind, getThis, call, requestAnimationFrame, uniform1fv,
    uniformMatrix4fv, pure, hcontext, tickCalls, hkernel, hmatrix]

/-- A run of `updateFrame_` when the composite selection names no array: the first upload
throws, nothing else is called and no callback is registered. -/
theorem tick_throws (s : State) (timestamp : Nat) (context : WebGLRenderingContext)
    (hcontext : s.self.context_ = some context)
    (hkernel : ∀ kernel,
      COMPOSITION_.index s.self.compositeFilter_.value ≠ Value.float32Array kernel) :
    updateFrame_ timestamp s =
      (Completion.throw "TypeError",
       { s with
         calls := s.calls ++
           [Call.uniform1fv s.self.kernel_ (COMPOSITION_.index s.self.compositeFilter_.value)] }) := by
  rcases hk : COMPOSITION_.index s.self.compositeFilter_.value with kernel | _ | _
  · exact absurd hk (hkernel kernel)
  · simp [updateFrame_, bind, Js.bind, getThis, call, uniform1fv, raise, hcontext, hk]
  · simp [updateFrame_, bind, Js.bind, getThis, call, uniform1fv, raise, hcontext, hk]

/-- The calls of a run of the render loop in which every option picked is a key of its
table: one group of five per frame, each with the kernel and the colour matrix of the
options picked before that frame; no callback is lost and none is added. -/
theorem frames_calls (selections : List (String × String)) (timestamp : Nat) (s : State)
    (context : WebGLRenderingContext) (hcontext : s.self.context_ = some context)
    (hpending : s.pending = [Callback.handleAnimationFrame_])
    (hkeys : ∀ selection ∈ selections,
      selection.1 ∈ COMPOSITION_.keys ∧ selection.2 ∈ COLOR_.keys) :
    (frames selections timestamp s).calls =
      s.calls ++ (selections.map fun selection =>
        tickCalls (select selection.1 selection.2 s).self).flatten ∧
    (frames selections timestamp s).pending = [Callback.handleAnimationFrame_] ∧
    (frames selections timestamp s).objects = s.objects := by
  induction selections generalizing timestamp s with
  | nil => simp [frames, hpending]
  | cons selection rest ih =>
    obtain ⟨composite, color⟩ := selection
    obtain ⟨hcomposite, hcolor⟩ := hkeys (composite, color) (List.mem_cons_self _ _)
    obtain ⟨kernel, hkernel⟩ := index_of_mem_keys COMPOSITION_ composite hcomposite
    obtain ⟨matrix, hmatrix⟩ := index_of_mem_keys COLOR_ color hcolor
    have hstep : animationFrame timestamp (select composite color s) =
        { select composite color s with
          calls := s.calls ++ tickCalls (select composite color s).self,
          pending := [Callback.handleAnimationFrame_] } := by
      simp only [animationFrame, select, hpending, Callback.run, List.foldl]
      rw [tick_calls _ timestamp context kernel matrix]
      · simp
      · exact hcontext
      · exact hkernel
      · exact hmatrix
    obtain ⟨h1, h2, h3⟩ := ih (timestamp + 1)
      (animationFrame timestamp (select composite color s))
      (by rw [hstep]; exact hcontext) (by rw [hstep])
      (fun selection hmem => hkeys selection (List.mem_cons_of_mem _ hmem))
    refine ⟨?_, h2, ?_⟩
    · rw [frames, h1, hstep]
      simp [select, tickCalls, List.append_assoc]
    · rw [frames, h3, hstep]
      rfl

/-- A frame in which the composite option names no array ends the render loop: the
callback throws at its first call and no callback waits afterwards. -/
theorem frame_stops (composite color : String) (timestamp : Nat) (s : State)
    (context : WebGLRenderingContext) (hcontext : s.self.context_ = some context)
    (hpending : s.pending = [Callback.handleAnimationFrame_])
    (hkernel : ∀ kernel, COMPOSITION_.index composite ≠ Value.float32Array kernel) :
    (animationFrame timestamp (select composite color s)).calls =
      s.calls ++ [Call.uniform1fv s.self.kernel_ (COMPOSITION_.index composite)] ∧
    (animationFrame timestamp (select composite color s)).pending = [] := by
  simp only [animationFrame, select, hpending, Callback.run, List.foldl]
  rw [tick_throws _ timestamp context]
  · simp
  · exact hcontext
  · exact hkernel

/-! ## The claims on the two handlers -/

theorem toFloat32_step_640 : toFloat32 (1 / 640) = 13421773 / 8589934592 := by
  decide!

/-- C7, counterexample: setup on a 640x480 video does not upload the pairs built from
1/640 and 1/480, and the horizontal step it uploads is not 0.0015625: it is
13421773 / 2^33. -/
theorem setup_offsets_not_exact :
    (((handleCaptureSuccess_ (some ⟨"blob:camera"⟩)
        (initialState (freshApplication (some workingContext)))).2.calls.drop
          (initialState (freshApplication (some workingContext))).calls.length).filterMap
        Call.offsets?).map (fun upload => upload.2.map vec2Array) ≠
      [some
        [ ⟨-(1 / 640), -(1 / 480)⟩, ⟨0, -(1 / 480)⟩, ⟨1 / 640, -(1 / 480)⟩,
          ⟨-(1 / 640), 0⟩, ⟨0, 0⟩, ⟨1 / 640, 0⟩,
          ⟨-(1 / 640), 1 / 480⟩, ⟨0, 1 / 480⟩, ⟨1 / 640, 1 / 480⟩ ]] ∧
    toFloat32 (1 / 640) ≠ 0.0015625 ∧
    toFloat32 (1 / 640) = 13421773 / 8589934592 := by
  refine ⟨?_, ?_, toFloat32_step_640⟩
  · rw [setup_uploads_offsets _ _ workingContext rfl rfl rfl]
    decide!
  · rw [toFloat32_step_640]
    norm_num

/-- C7, amended: when setup runs on a video of width `w` and height `h`, both positive
(and below 2^32, as the attributes of a video element are), on a context where both
shaders compile and the program links, the one array it uploads with `uniform2fv`, at the
location of `offset`, fills `offset[0..8]` with (-sw,-sh), (0,-sh), (sw,-sh), (-sw,0),
(0,0), (sw,0), (-sw,sh), (0,sh), (sw,sh), in this order, which is the row-major order of
the kernel.  Here `sw` and `sh` are the binary32 values the array keeps for 1/w and 1/h:
each within its 2^23-th part of the exact quotient.  For 640 the step is
13421773 / 2^33; for 512 it is exactly 1/512. -/
theorem setup_sample_offsets (s : State) (stream : MediaStream)
    (context : WebGLRenderingContext) (w h : Nat)
    (hcontext : s.self.context_ = some context)
    (hvertex : context.compileStatus GLenum.VERTEX_SHADER = true)
    (hfragment : context.compileStatus GLenum.FRAGMENT_SHADER = true)
    (hlink : context.linkStatus = true)
    (hwidth : s.self.video_.width = w) (hheight : s.self.video_.height = h)
    (hw : 0 < w) (hh : 0 < h) (_hw32 : w < 2 ^ 32) (_hh32 : h < 2 ^ 32) :
    (((handleCaptureSuccess_ (some stream) s).2.calls.drop s.calls.length).filterMap
        Call.offsets?).map (fun upload => (upload.1, upload.2.map vec2Array)) =
      [(context.uniformLocation "offset",
        some
          [ ⟨-toFloat32 (1 / (w : ℚ)), -toFloat32 (1 / (h : ℚ))⟩,
            ⟨0, -toFloat32 (1 / (h : ℚ))⟩,
            ⟨toFloat32 (1 / (w : ℚ)), -toFloat32 (1 / (h : ℚ))⟩,
            ⟨-toFloat32 (1 / (w : ℚ)), 0⟩, ⟨0, 0⟩, ⟨toFloat32 (1 / (w : ℚ)), 0⟩,
            ⟨-toFloat32 (1 / (w : ℚ)), toFloat32 (1 / (h : ℚ))⟩,
            ⟨0, toFloat32 (1 / (h : ℚ))⟩,
            ⟨toFloat32 (1 / (w : ℚ)), toFloat32 (1 / (h : ℚ))⟩ ])] ∧
    |toFloat32 (1 / (w : ℚ)) - 1 / (w : ℚ)| ≤ 1 / (w : ℚ) / 2 ^ 23 ∧
    |toFloat32 (1 / (h : ℚ)) - 1 / (h : ℚ)| ≤ 1 / (h : ℚ) / 2 ^ 23 ∧
    toFloat32 (1 / 640) = 13421773 / 8589934592 ∧ toFloat32 (1 / 512) = 1 / 512 := by
  obtain ⟨hvalues, herrw, herrh⟩ := sample_offsets_values w h hw hh
  refine ⟨?_, herrw, herrh, toFloat32_step_640, by decide!⟩
  rw [setup_uploads_offsets s stream context hcontext hvertex hfragment, hwidth, hheight,
    hlink]
  simp only [List.map, if_true, hvalues]

/-- Setup on a 640x480 video uploads the offsets built from the binary32 values of 1/640
and 1/480. -/
theorem setup_sample_offsets_witness :
    (((handleCaptureSuccess_ (some ⟨"blob:camera"⟩)
        (initialState (freshApplication (some workingContext)))).2.calls.drop
          (initialState (freshApplication (some workingContext))).calls.length).filterMap
        Call.offsets?).map (fun upload => (upload.1, upload.2.map vec2Array)) =
      [(workingContext.uniformLocation "offset",
        some
          [ ⟨-toFloat32 (1 / ((640 : Nat) : ℚ)), -toFloat32 (1 / ((480 : Nat) : ℚ))⟩,
            ⟨0, -toFloat32 (1 / ((480 : Nat) : ℚ))⟩,
            ⟨toFloat32 (1 / ((640 : Nat) : ℚ)), -toFloat32 (1 / ((480 : Nat) : ℚ))⟩,
            ⟨-toFloat32 (1 / ((640 : Nat) : ℚ)), 0⟩, ⟨0, 0⟩,
            ⟨toFloat32 (1 / ((640 : Nat) : ℚ)), 0⟩,
            ⟨-toFloat32 (1 / ((640 : Nat) : ℚ)), toFloat32 (1 / ((480 : Nat) : ℚ))⟩,
            ⟨0, toFloat32 (1 / ((480 : Nat) : ℚ))⟩,
            ⟨toFloat32 (1 / ((640 : Nat) : ℚ)), toFloat32 (1 / ((480 : Nat) : ℚ))⟩ ])] ∧
    |toFloat32 (1 / ((640 : Nat) : ℚ)) - 1 / ((640 : Nat) : ℚ)| ≤
      1 / ((640 : Nat) : ℚ) / 2 ^ 23 ∧
    |toFloat32 (1 / ((480 : Nat) : ℚ)) - 1 / ((480 : Nat) : ℚ)| ≤
      1 / ((480 : Nat) : ℚ) / 2 ^ 23 ∧
    toFloat32 (1 / 640) = 13421773 / 8589934592 ∧ toFloat32 (1 / 512) = 1 / 512 :=
  setup_sample_offsets (initialState (freshApplication (some workingContext)))
    ⟨"blob:camera"⟩ workingContext 640 480 rfl rfl rfl rfl rfl rfl (by decide) (by decide)
    (by decide) (by decide)

/-- C8 (the link case, evaluated): on a context where both shaders compile and the program
does not link, `handleCaptureSuccess_` completes without an error; it has uploaded the three
uniforms (to the null location) and has registered the render-loop callback. -/
theorem setup_link_failure_completes :
    unlinkedContext.compileStatus GLenum.VERTEX_SHADER = true ∧
    unlinkedContext.compileStatus GLenum.FRAGMENT_SHADER = true ∧
    unlinkedContext.linkStatus = false ∧
    (handleCaptureSuccess_ (some ⟨"blob:camera"⟩)
      (initialState (freshApplication (some unlinkedContext)))).1 = Completion.normal () ∧
    (handleCaptureSuccess_ (some ⟨"blob:camera"⟩)
      (initialState (freshApplication (some unlinkedContext)))).2.calls.filter
        Call.isUniformUpload =
      [ Call.uniform2fv none (sampleOffsets 640 480),
        Call.uniform1fv none (COMPOSITION_.index "none"),
        Call.uniformMatrix4fv none false (COLOR_.index "none") ] ∧
    (handleCaptureSuccess_ (some ⟨"blob:camera"⟩)
      (initialState (freshApplication (some unlinkedContext)))).2.pending =
        [Callback.handleAnimationFrame_] := by
  rw [setup_success (initialState (freshApplication (some unlinkedContext))) ⟨"blob:camera"⟩
    unlinkedContext _ _ rfl rfl rfl (index_of_get _ _ _ composition_none)
    (index_of_get _ _ _ color_none)]
  simp [Call.isUniformUpload, unlinkedContext, initialState, freshApplication,
    index_of_get _ _ _ composition_none, index_of_get _ _ _ color_none]

/-- C9: with a stream and no rendering context, `handleCaptureSuccess_` throws the
missing-WebGL error; the only call it has made is `createObjectURL`, so no shader, program,
buffer or texture has been created, and no animation-frame callback has been registered. -/
theorem setup_without_context (s : State) (stream : MediaStream)
    (hcontext : s.self.context_ = none) :
    (handleCaptureSuccess_ (some stream) s).1 =
      Completion.throw "This browser does not support the WebGL API." ∧
    (handleCaptureSuccess_ (some stream) s).2.calls =
      s.calls ++ [Call.createObjectURL stream] ∧
    (∀ c ∈ (handleCaptureSuccess_ (some stream) s).2.calls.drop s.calls.length,
      c.isBuild = false ∧ c ≠ Call.requestAnimationFrame Callback.handleAnimationFrame_) ∧
    (handleCaptureSuccess_ (some stream) s).2.objects = s.objects ∧
    (handleCaptureSuccess_ (some stream) s).2.pending = s.pending := by
  rw [setup_missing_context s stream hcontext]
  simp [Call.isBuild]

theorem setup_without_context_witness :
    (handleCaptureSuccess_ (some ⟨"blob:camera"⟩) (initialState (freshApplication none))).1 =
      Completion.throw "This browser does not support the WebGL API." ∧
    (handleCaptureSuccess_ (some ⟨"blob:camera"⟩)
      (initialState (freshApplication none))).2.calls =
      (initialState (freshApplication none)).calls ++ [Call.createObjectURL ⟨"blob:camera"⟩] ∧
    (∀ c ∈ (handleCaptureSuccess_ (some ⟨"blob:camera"⟩)
        (initialState (freshApplication none))).2.calls.drop
          (initialState (freshApplication none)).calls.length,
      c.isBuild = false ∧ c ≠ Call.requestAnimationFrame Callback.handleAnimationFrame_) ∧
    (handleCaptureSuccess_ (some ⟨"blob:camera"⟩)
      (initialState (freshApplication none))).2.objects =
      (initialState (freshApplication none)).objects ∧
    (handleCaptureSuccess_ (some ⟨"blob:camera"⟩)
      (initialState (freshApplication none))).2.pending =
      (initialState (freshApplication none)).pending :=
  setup_without_context (initialState (freshApplication none)) ⟨"blob:camera"⟩ rfl

/-- C10, counterexample: after setup, with the composite option `blur`, which is no key of
`COMPOSITION_`, a run of `updateFrame_` throws a TypeError at its first call: it makes that
one call, uploads no colour matrix and no frame, draws nothing and registers no callback,
so that the render loop has ended.  The same happens for the option `constructor`, under
which the table finds a function it inherits. -/
theorem update_frame_stray_selection :
    (readyState strayApplication).self.context_ = some workingContext ∧
    updateFrame_ 0 (readyState strayApplication) =
      (Completion.throw "TypeError",
       { readyState strayApplication with
         calls := [Call.uniform1fv (some 1) Value.undefined] }) ∧
    (updateFrame_ 0 (readyState strayApplication)).2.pending =
      (readyState strayApplication).pending ∧
    (animationFrame 0 (readyState strayApplication)).pending = [] ∧
    updateFrame_ 0 (readyState inheritedApplication) =
      (Completion.throw "TypeError",
       { readyState inheritedApplication with
         calls := [Call.uniform1fv (some 1) Value.inherited] }) := by
  have hstray : COMPOSITION_.index "blur" = Value.undefined := by decide!
  have hinherited : COMPOSITION_.index "constructor" = Value.inherited := by decide!
  have hne1 : ∀ kernel, COMPOSITION_.index "blur" ≠ Value.float32Array kernel := by
    intro kernel h
    rw [hstray] at h
    cases h
  have hne2 : ∀ kernel, COMPOSITION_.index "constructor" ≠ Value.float32Array kernel := by
    intro kernel h
    rw [hinherited] at h
    cases h
  have h1 := tick_throws (readyState strayApplication) 0 workingContext rfl hne1
  have h2 := tick_throws (readyState inheritedApplication) 0 workingContext rfl hne2
  have h3 := tick_throws { readyState strayApplication with pending := [] } 0 workingContext
    rfl hne1
  have hs : COMPOSITION_.index (readyState strayApplication).self.compositeFilter_.value =
      Value.undefined := hstray
  have hi : COMPOSITION_.index (readyState inheritedApplication).self.compositeFilter_.value =
      Value.inherited := hinherited
  rw [hs] at h1
  rw [hi] at h2
  refine ⟨rfl, ?_, ?_, ?_, ?_⟩
  · rw [h1]; rfl
  · rw [h1]
  · exact congrArg (fun result => result.2.pending) h3
  · rw [h2]; rfl

/-- C10, amended: a run of `updateFrame_` (the context is present, as after setup) in
which the composite selection is a key of `COMPOSITION_` and the colour selection a key of
`COLOR_` completes normally, changes no field of the application, creates no object, and
makes exactly these calls, in this order: `uniform1fv` with the kernel stored under the
composite selection read in this run, `uniformMatrix4fv` with the matrix stored under the
colour selection read in this run, `texImage2D` of the video as RGBA / UNSIGNED_BYTE,
`drawArrays (TRIANGLE_STRIP, 0, 4)`, and one `requestAnimationFrame` of itself.  None of
them compiles a shader, links a program or allocates a buffer or texture. -/
theorem update_frame_calls (s : State) (timestamp : Nat) (context : WebGLRenderingContext)
    (hcontext : s.self.context_ = some context)
    (hcomposite : s.self.compositeFilter_.value ∈ COMPOSITION_.keys)
    (hcolor : s.self.colorFilter_.value ∈ COLOR_.keys) :
    ∃ kernel matrix,
      COMPOSITION_.get s.self.compositeFilter_.value = some kernel ∧
      COLOR_.get s.self.colorFilter_.value = some matrix ∧
      updateFrame_ timestamp s =
        (Completion.normal (),
         { s with
           calls := s.calls ++
             [ Call.uniform1fv s.self.kernel_ (Value.float32Array kernel),
               Call.uniformMatrix4fv s.self.color_ false (Value.float32Array matrix),
               Call.texImage2D GLenum.TEXTURE_2D 0 GLenum.RGBA GLenum.RGBA
                 GLenum.UNSIGNED_BYTE s.self.video_,
               Call.drawArrays GLenum.TRIANGLE_STRIP 0 4,
               Call.requestAnimationFrame Callback.handleAnimationFrame_ ],
           pending := s.pending ++ [Callback.handleAnimationFrame_] }) ∧
      (∀ c ∈ (updateFrame_ timestamp s).2.calls.drop s.calls.length, c.isBuild = false) := by
  obtain ⟨kernel, hkernel⟩ := get_of_mem_keys COMPOSITION_ _ hcomposite
  obtain ⟨matrix, hmatrix⟩ := get_of_mem_keys COLOR_ _ hcolor
  have hk := index_of_get _ _ _ hkernel
  have hm := index_of_get _ _ _ hmatrix
  refine ⟨kernel, matrix, hkernel, hmatrix, ?_, ?_⟩
  · rw [tick_calls s timestamp context kernel matrix hcontext hk hm]
    simp [tickCalls, hk, hm]
  · rw [tick_calls s timestamp context kernel matrix hcontext hk hm]
    simp [tickCalls, Call.isBuild]

/-- After setup, with `box` and `sepia` picked, a run of `updateFrame_` uploads the nine
stored weights of `box` to location 1 and the stored matrix of `sepia` to location 2. -/
theorem update_frame_calls_witness :
    ∃ kernel matrix,
      COMPOSITION_.get (readyState readyApplication).self.compositeFilter_.value =
        some kernel ∧
      COLOR_.get (readyState readyApplication).self.colorFilter_.value = some matrix ∧
      updateFrame_ 0 (readyState readyApplication) =
        (Completion.normal (),
         { readyState readyApplication with
           calls := (readyState readyApplication).calls ++
             [ Call.uniform1fv (readyState readyApplication).self.kernel_
                 (Value.float32Array kernel),
               Call.uniformMatrix4fv (readyState readyApplication).self.color_ false
                 (Value.float32Array matrix),
               Call.texImage2D GLenum.TEXTURE_2D 0 GLenum.RGBA GLenum.RGBA
                 GLenum.UNSIGNED_BYTE (readyState readyApplication).self.video_,
               Call.drawArrays GLenum.TRIANGLE_STRIP 0 4,
               Call.requestAnimationFrame Callback.handleAnimationFrame_ ],
           pending := (readyState readyApplication).pending ++
             [Callback.handleAnimationFrame_] }) ∧
      (∀ c ∈ (updateFrame_ 0 (readyState readyApplication)).2.calls.drop
          (readyState readyApplication).calls.length, c.isBuild = false) :=
  update_frame_calls (readyState readyApplication) 0 workingContext rfl (by decide)
    (by decide)


end dena
